import Mathlib

/-
  Shallow embedding of the genetics engine of the equoria repository
  (file geneticsEngine.js): weighted random selection, store-horse genotype
  generation, phenotype determination, and foal inheritance.

  Modelling conventions:
  - JavaScript objects are association lists in insertion order (Obj).
  - JavaScript numbers are rationals; a non-numeric value is JSVal.other.
  - Math.random() is an explicit stream of rationals (Nat to Rat); a call
    consumes one index.  Each function threads the next unused index.
  - Genotype values are either allele-pair strings or booleans (GenoVal).
-/

namespace Equoria

/-- Association list standing for a JavaScript object in insertion order. -/
abbrev Obj (α : Type) := List (String × α)

/-- Lookup of a key, first matching entry. -/
def objGet {α : Type} : Obj α → String → Option α
  | [], _ => none
  | (k1, v1) :: rest, k => if k1 = k then some v1 else objGet rest k

/-- Assignment obj[k] = v: replace an existing key in place, else append. -/
def objSet {α : Type} : Obj α → String → α → Obj α
  | [], k, v => [(k, v)]
  | (k1, v1) :: rest, k, v =>
    if k1 = k then (k, v) :: rest else (k1, v1) :: objSet rest k v

/-- Value stored in a weight table or prevalence table: a number or anything else. -/
inductive JSVal : Type where
  | num (q : ℚ)
  | other
deriving DecidableEq, Repr

/-- Value at a genotype key: an allele-pair string or a boolean modifier. -/
inductive GenoVal : Type where
  | str (s : String)
  | bool (b : Bool)
deriving DecidableEq, Repr

/-- Exact character-list prefix test, written structurally so the kernel can
evaluate it. -/
def matchesAt : List Char → List Char → Bool
  | [], _ => true
  | _ :: _, [] => false
  | a :: as, b :: bs => a = b && matchesAt as bs

/-- Substring occurrence over character lists. -/
def containsSub (sub : List Char) : List Char → Bool
  | [] => sub.isEmpty
  | c :: cs => matchesAt sub (c :: cs) || containsSub sub cs

/-- JavaScript s.includes(sub): substring containment, true on an empty pattern. -/
def jsIncludes (s sub : String) : Bool :=
  containsSub sub.data s.data

/-- Lowercasing through the character list. -/
def jsToLower (s : String) : String :=
  String.mk (s.data.map Char.toLower)

/-- Trim of surrounding spaces; the engine strings contain no other whitespace. -/
def jsTrim (s : String) : String :=
  String.mk (((s.data.dropWhile (fun c => c = ' ')).reverse.dropWhile
    (fun c => c = ' ')).reverse)

/-- JavaScript s.startsWith(sub). -/
def jsStartsWith (s sub : String) : Bool :=
  sub.data.isPrefixOf s.data

/-- JavaScript s.endsWith(sub). -/
def jsEndsWith (s sub : String) : Bool :=
  sub.data.reverse.isPrefixOf s.data.reverse

/-- Split on a single-character separator, structurally; every split in the
engine uses a one-character separator. -/
def splitChAux (sep : Char) : List Char → List Char → List String
  | [], cur => [String.mk cur.reverse]
  | c :: cs, cur =>
    if c = sep then String.mk cur.reverse :: splitChAux sep cs []
    else splitChAux sep cs (c :: cur)

/-- JavaScript s.split(sep) for a one-character separator. -/
def jsSplitCh (s : String) (sep : Char) : List String :=
  splitChAux sep s.data []

/-- Fueled first-occurrence replace over character lists. -/
def replaceFirstAux (pat rep : List Char) : Nat → List Char → List Char
  | 0, l => l
  | _ + 1, [] => []
  | n + 1, c :: cs =>
    if matchesAt pat (c :: cs) then
      if pat.isEmpty then c :: cs else rep ++ List.drop pat.length (c :: cs)
    else c :: replaceFirstAux pat rep n cs

/-- JavaScript string replace with a string pattern: first occurrence only. -/
def jsReplaceOnce (s pat rep : String) : String :=
  String.mk (replaceFirstAux pat.data rep.data (s.length + 1) s.data)

/-- Lexicographic code-point comparison over character lists. -/
def charListLt : List Char → List Char → Bool
  | [], [] => false
  | [], _ :: _ => true
  | _ :: _, [] => false
  | a :: as, b :: bs =>
    if a.toNat < b.toNat then true
    else if b.toNat < a.toNat then false
    else charListLt as bs

/-- JavaScript default string ordering, as used by the two-element sort in
combineAlleles. -/
def jsStrLt (a b : String) : Bool := charListLt a.data b.data

/-- Collapse every run of spaces to a single space, as replace over space runs does. -/
def collapseSpaces (s : String) : String :=
  String.mk (s.data.foldr
    (fun c acc => if c = ' ' ∧ acc.head? = some ' ' then acc else c :: acc) [])

/-- Uppercase the first character, as capitalizeFirstLetter in the source. -/
def capitalizeFirstLetter (s : String) : String :=
  match s.data with
  | [] => ""
  | c :: cs => String.mk (c.toUpper :: cs)

/-- Case-insensitive match of pattern characters at the head of a list, returning
the remainder on success. -/
def dropPatCI : List Char → List Char → Option (List Char)
  | [], l => some l
  | _ :: _, [] => none
  | p :: ps, c :: cs => if p.toLower = c.toLower then dropPatCI ps cs else none

/-- Fueled case-insensitive global replace over character lists. -/
def replaceAllCIAux (pat rep : List Char) : Nat → List Char → List Char
  | 0, l => l
  | _ + 1, [] => []
  | n + 1, c :: cs =>
    match dropPatCI pat (c :: cs) with
    | some rem =>
      if pat.isEmpty then c :: replaceAllCIAux pat rep n cs
      else rep ++ replaceAllCIAux pat rep n rem
    | none => c :: replaceAllCIAux pat rep n cs

/-- Case-insensitive global regex replace, as replace with the gi flags. -/
def replaceAllCI (s pat rep : String) : String :=
  String.mk (replaceAllCIAux pat.data rep.data (s.length + 1) s.data)

/-- Fueled case-insensitive first-occurrence replace over character lists. -/
def replaceFirstCIAux (pat rep : List Char) : Nat → List Char → List Char
  | 0, l => l
  | _ + 1, [] => []
  | n + 1, c :: cs =>
    match dropPatCI pat (c :: cs) with
    | some rem => if pat.isEmpty then c :: cs else rep ++ rem
    | none => c :: replaceFirstCIAux pat rep n cs

/-- Case-insensitive first-occurrence regex replace, as replace with the i flag. -/
def replaceFirstCI (s pat rep : String) : String :=
  String.mk (replaceFirstCIAux pat.data rep.data (s.length + 1) s.data)

/-
  selectWeightedRandom (geneticsEngine.js lines 14-62).
  The input object is an Option: none stands for a missing or non-object
  argument.  The parameter r is the value Math.random() would return on the
  single draw the function can make.
-/

/-- Weight accepted by selectWeightedRandom: a non-negative number. -/
def validWeight : JSVal → Option ℚ
  | .num q => if 0 ≤ q then some q else none
  | .other => none

/-- Sum of the valid weights, as the first loop of selectWeightedRandom. -/
def sumOfWeights (items : Obj JSVal) : ℚ :=
  items.foldl
    (fun acc p => match validWeight p.2 with
      | some q => acc + q
      | none => acc) 0

/-- Cumulative walk of selectWeightedRandom: subtract valid weights until the
running remainder drops below the current weight. -/
def swrLoop : Obj JSVal → ℚ → Option String
  | [], _ => none
  | (k, v) :: rest, r =>
    match validWeight v with
    | some w => if r < w then some k else swrLoop rest (r - w)
    | none => swrLoop rest r

/-- Keys of the entries with a valid weight, as the validItems filter. -/
def validKeys (items : Obj JSVal) : List String :=
  (items.filter (fun p => (validWeight p.2).isSome)).map (fun p => p.1)

/-- Embedding of selectWeightedRandom on a present object; r is the Math.random draw. -/
def selectWeightedRandom (items : Obj JSVal) (r : ℚ) : Option String :=
  if items.isEmpty then none
  else if sumOfWeights items = 0 then (items.head?).map (fun p => p.1)
  else
    match swrLoop items (r * sumOfWeights items) with
    | some k => some k
    | none => (validKeys items).getLast?

/-- Embedding of selectWeightedRandom including the invalid-input guard: none
stands for a missing, non-object or empty argument. -/
def selectWeightedRandomJS (items : Option (Obj JSVal)) (r : ℚ) : Option String :=
  match items with
  | none => none
  | some o => selectWeightedRandom o r

/-- Number of Math.random draws a selectWeightedRandom call consumes. -/
def swrDraws (items : Obj JSVal) : Nat :=
  if items.isEmpty then 0
  else if sumOfWeights items = 0 then 0
  else 1

/-
  Breed genetic profile, typed after its uses in geneticsEngine.js.
  Every field is optional: none stands for an absent or non-object value.
-/

/-- Multipliers read through optional chaining from advanced_markings_bias. -/
structure AdvBias : Type where
  snowflake_probability_multiplier : Option ℚ := none
  frost_probability_multiplier : Option ℚ := none
  bloody_shoulder_probability_multiplier : Option ℚ := none
deriving DecidableEq, Repr

/-- Marking bias tables used by the markings section of determinePhenotype. -/
structure MarkingBias : Type where
  face : Option (Obj JSVal) := none
  leg_specific_probabilities : Option (Obj JSVal) := none
  legs_general_probability : Option JSVal := none
  max_legs_marked : Option ℚ := none
deriving DecidableEq, Repr

/-- Breed genetic profile as consumed by the three entry points. -/
structure BreedProfile : Type where
  allele_weights : Option (Obj (Obj JSVal)) := none
  disallowed_combinations : Option (Obj (List String)) := none
  allowed_alleles : Option (Obj (List String)) := none
  boolean_modifiers_prevalence : Option (Obj JSVal) := none
  shade_bias : Option (Obj (Obj JSVal)) := none
  marking_bias : Option MarkingBias := none
  advanced_markings_bias : Option AdvBias := none
deriving DecidableEq, Repr

/-- Check disallowed_combinations[gene].includes(pair) behind the truthiness
guards of the source: false whenever the table or the entry is absent. -/
def disallowedOf (p : BreedProfile) (gene pair : String) : Bool :=
  match p.disallowed_combinations with
  | none => false
  | some d =>
    match objGet d gene with
    | none => false
    | some lst => lst.contains pair

/-
  generateStoreHorseGenetics (geneticsEngine.js lines 70-161).
  Returns the generated genotype object together with the list of warning and
  error diagnostics written to the console, and threads the random index.
-/

/-- Loop over allele_weights: one weighted draw per gene; a disallowed pick or
a falsy pick leaves the gene out and signals a warning. -/
def genGeneLoop (p : BreedProfile) (rng : ℕ → ℚ) :
    List (String × Obj JSVal) → Obj GenoVal × List String × ℕ →
    Obj GenoVal × List String × ℕ
  | [], acc => acc
  | (gene, weights) :: rest, (geno, diags, i) =>
    let chosen := selectWeightedRandom weights (rng i)
    let j := i + swrDraws weights
    let next : Obj GenoVal × List String × ℕ :=
      match chosen with
      | some pair =>
        if pair ≠ "" then
          if disallowedOf p gene pair then
            (geno, diags ++ ["disallowed allele pair " ++ pair ++ " for " ++ gene], j)
          else (objSet geno gene (.str pair), diags, j)
        else (geno, diags ++ ["could not determine allele for " ++ gene], j)
      | none => (geno, diags ++ ["could not determine allele for " ++ gene], j)
    genGeneLoop p rng rest next

/-- Loop over boolean_modifiers_prevalence: a valid prevalence draws a boolean,
an invalid one defaults the modifier to false with a warning. -/
def genModifierLoop (rng : ℕ → ℚ) :
    List (String × JSVal) → Obj GenoVal × List String × ℕ →
    Obj GenoVal × List String × ℕ
  | [], acc => acc
  | (name, prev) :: rest, (geno, diags, i) =>
    let next : Obj GenoVal × List String × ℕ :=
      match prev with
      | .num q =>
        if 0 ≤ q ∧ q ≤ 1 then (objSet geno name (.bool (decide (rng i < q))), diags, i + 1)
        else (objSet geno name (.bool false),
          diags ++ ["invalid prevalence for boolean modifier " ++ name], i)
      | .other =>
        (objSet geno name (.bool false),
          diags ++ ["invalid prevalence for boolean modifier " ++ name], i)
    genModifierLoop rng rest next

/-- Embedding of generateStoreHorseGenetics: none for the profile stands for a
missing or null argument. -/
def generateStoreHorseGenetics (p? : Option BreedProfile) (rng : ℕ → ℚ) :
    Obj GenoVal × List String :=
  match p? with
  | none => ([], ["Breed genetic profile is undefined or null."])
  | some p =>
    let s1 : Obj GenoVal × List String × ℕ :=
      match p.allele_weights with
      | some aw => genGeneLoop p rng aw ([], [], 0)
      | none => ([], ["allele_weights not found or invalid in breed profile."], 0)
    let s2 : Obj GenoVal × List String × ℕ :=
      match p.boolean_modifiers_prevalence with
      | some bmp => genModifierLoop rng bmp s1
      | none =>
        (s1.1, s1.2.1 ++ ["boolean_modifiers_prevalence not found or invalid in breed profile."],
          s1.2.2)
    (s2.1, s2.2.1)

/-
  determinePhenotype (geneticsEngine.js lines 331-1170) and its helper
  applyPearlDilution (lines 171-322).  The genotype argument follows the data
  model: loci map to allele-pair strings, the four boolean modifiers are
  separate optional booleans.
-/

/-- Well-formed genotype: gene loci with allele-pair strings plus the four
boolean modifiers. -/
structure Genotype : Type where
  loci : Obj String := []
  sooty : Option Bool := none
  flaxen : Option Bool := none
  pangare : Option Bool := none
  rabicano : Option Bool := none
deriving DecidableEq, Repr

/-- Helper hasAllele: the locus is present, truthy, and contains the allele
as a substring. -/
def hasAllele (g : Genotype) (gene allele : String) : Bool :=
  match objGet g.loci gene with
  | some s => s ≠ "" && jsIncludes s allele
  | none => false

/-- Helper getAlleles: split a truthy pair on the slash, else the empty list. -/
def getAlleles (g : Genotype) (gene : String) : List String :=
  match objGet g.loci gene with
  | some s => if s = "" then [] else jsSplitCh s '/'
  | none => []

/-- Helper isHomozygous from the source. -/
def isHomozygous (g : Genotype) (gene allele : String) : Bool :=
  match getAlleles g gene with
  | [a, b] => a = allele && b = allele
  | _ => false

/-- Helper isHeterozygous from the source. -/
def isHeterozygous (g : Genotype) (gene a1 a2 : String) : Bool :=
  match getAlleles g gene with
  | [a, b] => (a = a1 && b = a2) || (a = a2 && b = a1)
  | _ => false

/-- Dominant-white alleles: the W_DominantWhite pair filtered to tokens that
start with a capital W, unless the locus is absent, falsy or w/w. -/
def getDominantWhiteAlleles (g : Genotype) : List String :=
  match objGet g.loci "W_DominantWhite" with
  | none => []
  | some s =>
    if s = "" ∨ s = "w/w" then []
    else (jsSplitCh s '/').filter (fun a => jsStartsWith a "W" && a ≠ "w")

/-- Splash-white alleles of the SW_SplashWhite pair. -/
def getSplashWhiteAlleles (g : Genotype) : List String :=
  match objGet g.loci "SW_SplashWhite" with
  | none => []
  | some s =>
    if s = "" ∨ s = "n/n" then []
    else (jsSplitCh s '/').filter (fun a => jsStartsWith a "SW")

/-- Eden-white alleles of the EDXW pair. -/
def getEdenWhiteAlleles (g : Genotype) : List String :=
  match objGet g.loci "EDXW" with
  | none => []
  | some s =>
    if s = "" ∨ s = "n/n" then []
    else (jsSplitCh s '/').filter (fun a => jsStartsWith a "EDXW")

/-- Pair of display color and phenotype key threaded through the dilution steps. -/
structure ColorState : Type where
  color : String
  key : String
deriving DecidableEq, Repr

/-- Step 1 of determinePhenotype: base coat color and the chestnut flag. -/
def baseCoat (g : Genotype) : String × Bool :=
  if isHomozygous g "E_Extension" "e" then ("Chestnut", true)
  else if hasAllele g "A_Agouti" "A" then ("Bay", false)
  else ("Black", false)

/-- Mushroom dilution (lines 420-435): chestnut-only recolor plus the special
case of mushroom with homozygous pearl and no cream; the flag records that the
pearl sub-routine is to be skipped. -/
def mushroomStage (g : Genotype) (isChestnutBase : Bool) (cs : ColorState) :
    ColorState × Bool :=
  let cs1 :=
    if isChestnutBase && hasAllele g "MFSD12_Mushroom" "Mu" then
      ColorState.mk "Mushroom Chestnut" "Mushroom"
    else cs
  if cs1.color = "Mushroom Chestnut" && objGet g.loci "PRL_Pearl" = some "prl/prl" &&
      (objGet g.loci "Cr_Cream" = some "n/n" || !hasAllele g "Cr_Cream" "Cr") then
    (ColorState.mk "Mushroom Pearl" "Mushroom Pearl", true)
  else (cs1, false)

/-- Cream dilution (lines 444-469). -/
def creamStage (g : Genotype) (baseColor : String) (cs : ColorState) : ColorState :=
  let truthyCr : Bool :=
    match objGet g.loci "Cr_Cream" with
    | some s => s != ""
    | none => false
  if truthyCr then
    if isHeterozygous g "Cr_Cream" "Cr" "n" then
      if baseColor = "Chestnut" then ColorState.mk "Palomino" "Palomino"
      else if baseColor = "Bay" then ColorState.mk "Buckskin" "Buckskin"
      else if baseColor = "Black" then ColorState.mk "Smoky Black" "Smoky Black"
      else cs
    else if isHomozygous g "Cr_Cream" "Cr" then
      if baseColor = "Chestnut" then ColorState.mk "Cremello" "Cremello"
      else if baseColor = "Bay" then ColorState.mk "Perlino" "Perlino"
      else if baseColor = "Black" then ColorState.mk "Smoky Cream" "Smoky Cream"
      else cs
    else cs
  else cs

/-- Dun dilution (lines 478-511): recolors on a dominant D and otherwise leaves
a primitive-marking descriptor for the non-dun alleles. -/
def dunStage (g : Genotype) (baseColor : String) (cs : ColorState) :
    ColorState × String :=
  if hasAllele g "D_Dun" "D" then
    let orig := if cs.color = "" then baseColor else cs.color
    let c :=
      if baseColor = "Black" || jsIncludes orig "Smoky Black" then "Grulla"
      else if baseColor = "Bay" || jsIncludes orig "Buckskin" then
        if jsIncludes orig "Buckskin" then "Buckskin Dun" else "Bay Dun"
      else if baseColor = "Chestnut" || jsIncludes orig "Palomino" ||
          jsIncludes orig "Mushroom Chestnut" then
        if jsIncludes orig "Palomino" then "Palomino Dun"
        else if jsIncludes orig "Mushroom Chestnut" then "Mushroom Dun"
        else "Red Dun"
      else if ["Cremello", "Perlino", "Smoky Cream"].contains orig then orig ++ " Dun"
      else orig ++ " Dun"
    (ColorState.mk c c, "")
  else if isHomozygous g "D_Dun" "nd1" then
    (cs, " (Non-Dun 1 - Primitive Markings)")
  else if isHeterozygous g "D_Dun" "nd1" "nd2" then
    (cs, " (Non-Dun 2 - Faint Primitive Markings)")
  else (cs, "")

/-- Champagne dilution (lines 520-592): a fixed table over base color, cream
state and dun state, with a warning fallback to the plain base champagne name. -/
def champagneStage (g : Genotype) (baseColor : String) (isChestnutBase : Bool)
    (cs : ColorState) : ColorState :=
  if hasAllele g "CH_Champagne" "Ch" then
    let isSingleCream := isHeterozygous g "Cr_Cream" "Cr" "n"
    let isDoubleCream := isHomozygous g "Cr_Cream" "Cr"
    let isDunActive := hasAllele g "D_Dun" "D"
    let pick : String → String → String → Option String := fun gold amber classic =>
      if isChestnutBase then some gold
      else if baseColor = "Bay" then some amber
      else if baseColor = "Black" then some classic
      else none
    let determined : Option String :=
      if !isSingleCream && !isDoubleCream && !isDunActive then
        pick "Gold Champagne" "Amber Champagne" "Classic Champagne"
      else if isSingleCream && !isDoubleCream && !isDunActive then
        pick "Gold Cream Champagne" "Amber Cream Champagne" "Classic Cream Champagne"
      else if isDoubleCream && !isDunActive then
        pick "Ivory Champagne (Cremello)" "Ivory Champagne (Perlino)"
          "Ivory Champagne (Smoky Cream)"
      else if isDunActive && !isSingleCream && !isDoubleCream then
        pick "Gold Dun Champagne" "Amber Dun Champagne" "Classic Dun Champagne"
      else if isSingleCream && !isDoubleCream && isDunActive then
        pick "Gold Cream Dun Champagne" "Amber Cream Dun Champagne"
          "Classic Cream Dun Champagne"
      else if isDoubleCream && isDunActive then
        pick "Ivory Dun Champagne (Cremello)" "Ivory Dun Champagne (Perlino)"
          "Ivory Dun Champagne (Smoky Cream)"
      else
        pick "Gold Champagne" "Amber Champagne" "Classic Champagne"
    match determined with
    | some c => ColorState.mk c c
    | none => cs
  else cs

/-- Silver dilution (lines 601-631): acts only on black pigment, prefixes the
color and renormalizes the phenotype key. -/
def silverStage (g : Genotype) (baseColor : String) (isChestnutBase : Bool)
    (cs : ColorState) : ColorState :=
  if hasAllele g "Z_Silver" "Z" && !isChestnutBase then
    let orig := if cs.color = "" then baseColor else cs.color
    let cdcLower := jsToLower orig
    let acts : Bool :=
      (baseColor = "Black" || baseColor = "Bay") ||
      (jsIncludes cdcLower "classic" || jsIncludes cdcLower "sable" ||
        (jsIncludes cdcLower "amber" && baseColor = "Bay"))
    let cs1 :=
      if acts && !jsIncludes cdcLower "silver" then
        ColorState.mk ("Silver " ++ orig)
          ("Silver " ++
            (replaceFirstCI (replaceFirstCI (replaceFirstCI (replaceFirstCI
              cs.key "Classic" "Black") "Amber" "Bay") "Gold" "Chestnut") "Sable" "Black"))
      else cs
    let key2 :=
      if jsStartsWith (jsToLower cs1.key) "silver silver" then cs1.key.drop 7 else cs1.key
    let key3 :=
      replaceFirstCI (replaceFirstCI (replaceFirstCI
        key2 "Silver Classic" "Silver Black") "Silver Amber" "Silver Bay")
        "Silver Sable" "Silver Black"
    ColorState.mk cs1.color key3
  else cs

/-- Embedding of applyPearlDilution (lines 171-322). -/
def applyPearlDilution (currentDisplayColor phenotypeKeyForShade : String)
    (g : Genotype) (baseColor : String) : ColorState :=
  let n0 := jsTrim currentDisplayColor
  let k0 := jsTrim phenotypeKeyForShade
  let isHomozygousPearl := objGet g.loci "PRL_Pearl" = some "prl/prl"
  let isHeterozygousPearl :=
    objGet g.loci "PRL_Pearl" = some "prl/n" || objGet g.loci "PRL_Pearl" = some "n/prl"
  let hasSingleCream :=
    objGet g.loci "Cr_Cream" = some "Cr/n" || objGet g.loci "Cr_Cream" = some "n/Cr"
  let hasDoubleCream := objGet g.loci "Cr_Cream" = some "Cr/Cr"
  if isHomozygousPearl || (isHeterozygousPearl && hasSingleCream) then
    let orig := n0
    let s1 : String × String :=
      if isHomozygousPearl && !hasSingleCream && !hasDoubleCream then
        if baseColor = "Chestnut" && !jsIncludes (jsToLower orig) "champagne" then
          ("Apricot", "Apricot")
        else (orig ++ " Pearl", k0 ++ " Pearl")
      else if hasSingleCream && isHeterozygousPearl then
        if orig = "Palomino" && !jsIncludes (jsToLower orig) "champagne" then
          ("Palomino Pearl", "Palomino Pearl")
        else if orig = "Buckskin" && !jsIncludes (jsToLower orig) "champagne" then
          ("Buckskin Pearl", "Buckskin Pearl")
        else if orig = "Smoky Black" && !jsIncludes (jsToLower orig) "champagne" then
          ("Smoky Black Pearl", "Smoky Black Pearl")
        else
          (jsReplaceOnce (orig ++ " " ++ "Pearl Cream") "  " " ",
            jsReplaceOnce (k0 ++ " " ++ "Pearl Cream") "  " " ")
      else if hasSingleCream && isHomozygousPearl then
        if orig = "Palomino" || orig = "Buckskin" || orig = "Smoky Black" then
          (orig ++ " " ++ "Homozygous Pearl Cream", orig ++ " " ++ "Homozygous Pearl Cream")
        else
          (jsReplaceOnce (orig ++ " " ++ "Homozygous Pearl Cream") "  " " ",
            jsReplaceOnce (k0 ++ " " ++ "Homozygous Pearl Cream") "  " " ")
      else (n0, k0)
    let s2 : String × String :=
      if isHomozygousPearl && hasDoubleCream then
        if !jsIncludes (jsToLower s1.1) "pearl" then
          (orig ++ " (Pearl)", s1.2 ++ " (Pearl)")
        else s1
      else s1
    let n3 := jsTrim (collapseSpaces s2.1)
    let k3 := jsTrim (collapseSpaces s2.2)
    let k4 :=
      if jsIncludes (jsToLower k3) "pearl pearl" then replaceAllCI k3 "Pearl Pearl" "Pearl"
      else k3
    let k5 :=
      if jsIncludes (jsToLower k4) "pearl cream pearl" then
        replaceAllCI k4 "Pearl Cream Pearl" "Pearl Cream"
      else k4
    let n4 :=
      if jsIncludes (jsToLower n3) "pearl pearl" then replaceAllCI n3 "Pearl Pearl" "Pearl"
      else n3
    let n5 :=
      if jsIncludes (jsToLower n4) "pearl cream pearl" then
        replaceAllCI n4 "Pearl Cream Pearl" "Pearl Cream"
      else n4
    ColorState.mk n5 k5
  else ColorState.mk n0 k0

/-- Shade determination (lines 674-698): look up shade_bias by phenotype key,
base color, first word of the key, then a Default bucket; the second component
counts the Math.random draws consumed. -/
def determineShade (p? : Option BreedProfile) (key baseColor : String) (r : ℚ) :
    Option String × ℕ :=
  match p? with
  | none => (none, 0)
  | some p =>
    match p.shade_bias with
    | none => (none, 0)
    | some sb =>
      match objGet sb key with
      | some items => (selectWeightedRandom items r, swrDraws items)
      | none =>
        match objGet sb baseColor, decide (key ≠ baseColor) with
        | some items, true => (selectWeightedRandom items r, swrDraws items)
        | _, _ =>
          let firstWord := ((jsSplitCh key ' ').headD "")
          match objGet sb firstWord with
          | some items => (selectWeightedRandom items r, swrDraws items)
          | none =>
            match objGet sb "Default" with
            | some items => (selectWeightedRandom items r, swrDraws items)
            | none => (none, 0)

/-- Defaulting of a falsy shade to the standard shade (line 699). -/
def shadeOrStandard (o : Option String) : String :=
  match o with
  | some s => if s = "" then "standard" else s
  | none => "standard"

/-- Shade application (lines 708-717): prepend the capitalized shade unless it
is standard or medium, already present, or the color is a gray. -/
def shadeApply (shade : String) (cs : ColorState) : ColorState :=
  let shadeLower := jsToLower shade
  if shadeLower ≠ "standard" && shadeLower ≠ "medium" &&
      !jsIncludes (jsToLower cs.color) shadeLower && !jsIncludes (jsToLower cs.color) "gray" then
    ColorState.mk (capitalizeFirstLetter shade ++ " " ++ cs.color)
      (capitalizeFirstLetter shade ++ " " ++ cs.key)
  else cs

/-- Sooty prefix (lines 727-733). -/
def sootyStage (g : Genotype) (cs : ColorState) : ColorState :=
  if g.sooty = some true && !jsStartsWith (jsToLower cs.color) "sooty" then
    ColorState.mk ("Sooty " ++ cs.color) ("Sooty " ++ cs.key)
  else cs

/-- Join of displayColorParts with single spaces. -/
def joinParts (parts : List String) : String :=
  String.intercalate " " parts

/-- Flaxen modifier (lines 744-754): chestnut-only suffix descriptor. -/
def flaxenStage (g : Genotype) (isChestnutBase : Bool) (color : String)
    (parts : List String) : List String :=
  if isChestnutBase && g.flaxen = some true then
    if !jsIncludes (jsToLower color) "palomino" && !jsIncludes (jsToLower color) "cremello" &&
        !jsIncludes (jsToLower color) "flaxen" then
      if !jsIncludes (jsToLower (joinParts parts)) "flaxen" then parts ++ ["Flaxen"]
      else parts
    else parts
  else parts

/-- Pangare modifier (lines 756-760). -/
def pangareStage (g : Genotype) (parts : List String) : List String :=
  if g.pangare = some true then
    if !jsIncludes (jsToLower (joinParts parts)) "pangare" then parts ++ ["Pangare"]
    else parts
  else parts

/-- Roan (lines 762-853): renames by pigment family, keeps a sooty or shade
lead and dun, champagne or pearl descriptor words as trailing qualifiers. -/
def roanStage (g : Genotype) (baseColor shade : String) (parts : List String)
    (key : String) : List String × String :=
  let truthyRn : Bool :=
    match objGet g.loci "Rn_Roan" with
    | some s => s != ""
    | none => false
  if truthyRn && hasAllele g "Rn_Roan" "Rn" &&
      !(parts.any (fun p => jsIncludes (jsToLower p) "gray")) then
    let cdc := jsToLower (joinParts parts)
    let roanColorName :=
      if baseColor = "Chestnut" || jsIncludes cdc "chestnut" || jsIncludes cdc "palomino" ||
          jsIncludes cdc "cremello" || jsIncludes cdc "gold" || jsIncludes cdc "apricot" ||
          jsIncludes cdc "mushroom" || jsIncludes cdc "ivory" then "Red Roan"
      else if baseColor = "Bay" || jsIncludes cdc "bay" || jsIncludes cdc "buckskin" ||
          jsIncludes cdc "perlino" || jsIncludes cdc "amber" then "Bay Roan"
      else if baseColor = "Black" || jsIncludes cdc "black" || jsIncludes cdc "smoky" ||
          jsIncludes cdc "grulla" || jsIncludes cdc "classic" || jsIncludes cdc "sable" then
        "Blue Roan"
      else ""
    if roanColorName ≠ "" then
      let p0 := parts.headD ""
      let p0words := jsSplitCh p0 ' '
      let firstPart := jsToLower (p0words.headD "")
      let lead :=
        if firstPart = "sooty" || firstPart = jsToLower shade then
          if firstPart = "sooty" && p0words.length > 1 &&
              jsToLower (p0words.getD 1 "") = jsToLower shade then
            p0words.headD "" ++ " " ++ p0words.getD 1 "" ++ " "
          else p0words.headD "" ++ " "
        else ""
      let ws := jsSplitCh (joinParts parts) ' '
      let existingDescriptors := ws.foldl
        (fun acc word =>
          let wLower := jsToLower word
          if (jsIncludes wLower "dun" || jsIncludes wLower "champagne" ||
              jsIncludes wLower "pearl") &&
              !jsIncludes (jsToLower roanColorName) wLower &&
              !jsIncludes (jsToLower lead) wLower &&
              !jsIncludes word "(" && !jsIncludes word ")" then
            if !(acc.map jsToLower).contains wLower then
              acc ++ [capitalizeFirstLetter wLower]
            else acc
          else acc) []
      ((lead ++ roanColorName) :: existingDescriptors, roanColorName)
    else
      (if parts.any (fun p => jsIncludes (jsToLower p) "roan") then parts
        else parts ++ ["Roan"], key)
  else (parts, key)

/-- The dominant-white alleles that force an all-white coat (line 861). -/
def lethalWhites : List String := ["W2", "W4", "W5", "W10", "W13", "W19", "W22"]

/-- White patterns (lines 856-926): dominant white with lethal override flag,
frame overo, tobiano, sabino, splash white and eden white descriptors. -/
def whiteStage (g : Genotype) (parts : List String) (key : String) :
    List String × String × Bool :=
  let wA := getDominantWhiteAlleles g
  let s1 : List String × String × Bool :=
    if wA.length > 0 then
      if wA.any (fun w => lethalWhites.contains w) then
        (["White"], "Dominant White", true)
      else if wA.contains "W20" then
        (if !jsIncludes (jsToLower (joinParts parts)) "minimal white" then
          parts ++ ["Minimal White (W20)"] else parts, key, false)
      else
        (if !jsIncludes (jsToLower (joinParts parts)) "dominant white" &&
            !jsIncludes (jsToLower (joinParts parts)) "white" then
          parts ++ ["Dominant White"] else parts, key, false)
    else (parts, key, false)
  if s1.2.2 then s1
  else
    let parts1 := s1.1
    let parts2 :=
      if hasAllele g "O_FrameOvero" "O" && objGet g.loci "O_FrameOvero" ≠ some "O/O" then
        if !jsIncludes (jsToLower (joinParts parts1)) "frame overo" then
          parts1 ++ ["Frame Overo"] else parts1
      else parts1
    let parts3 :=
      if hasAllele g "TO_Tobiano" "TO" then
        if !jsIncludes (jsToLower (joinParts parts2)) "tobiano" then parts2 ++ ["Tobiano"]
        else parts2
      else parts2
    let parts4 :=
      if hasAllele g "SB1_Sabino1" "SB1" then
        if !jsIncludes (jsToLower (joinParts parts3)) "sabino" then parts3 ++ ["Sabino"]
        else parts3
      else parts3
    let splashTerms := (getSplashWhiteAlleles g).map
      (fun sa => "Splash White " ++ jsReplaceOnce sa "SW" "")
    let parts5 := splashTerms.foldl
      (fun acc st =>
        if !jsIncludes (jsToLower (joinParts acc)) (jsToLower st) then acc ++ [st] else acc)
      parts4
    let edenTerms := (getEdenWhiteAlleles g).map
      (fun ea => "Eden White " ++ jsReplaceOnce ea "EDXW" "")
    let parts6 := edenTerms.foldl
      (fun acc et =>
        if !jsIncludes (jsToLower (joinParts acc)) (jsToLower et) then acc ++ [et] else acc)
      parts5
    (parts6, s1.2.1, false)

/-- Multiplier read through optional chaining with a 1.0 default. -/
def advMult (p? : Option BreedProfile) (f : AdvBias → Option ℚ) : ℚ :=
  match p? with
  | none => 1
  | some p =>
    match p.advanced_markings_bias with
    | none => 1
    | some a => (f a).getD 1

/-- Leopard complex and Pattern-1 (lines 928-975): homozygous LP names, and the
age-banded compound name with a weighted snowflake-frost draw and a coin-flip
underlying pattern; returns parts, key, the mottling flag and the next random
index. -/
def lpStage (g : Genotype) (p? : Option BreedProfile) (age : ℚ) (allWhite : Bool)
    (parts : List String) (key : String) (rng : ℕ → ℚ) (i : ℕ) :
    List String × String × Bool × ℕ :=
  let hasLP : Bool :=
    match objGet g.loci "LP_LeopardComplex" with
    | some s => s != "" && jsIncludes s "LP"
    | none => false
  let hasPATN1 : Bool :=
    match objGet g.loci "PATN1_Pattern1" with
    | some s => s != "" && jsIncludes s "PATN1" && s != "patn1/patn1"
    | none => false
  if hasLP && !allWhite then
    let named : String × ℕ :=
      if objGet g.loci "LP_LeopardComplex" = some "LP/LP" then
        (if hasPATN1 then "Fewspot Leopard" else "Snowcap", i)
      else if objGet g.loci "LP_LeopardComplex" = some "LP/lp" then
        if hasPATN1 then ("Leopard Appaloosa", i)
        else
          let agePre := if age ≤ 4 then "Light" else if age ≤ 8 then "Moderate" else "Heavy"
          let snowProb := advMult p? (fun a => a.snowflake_probability_multiplier) * (1 / 2)
          let frostProb := advMult p? (fun a => a.frost_probability_multiplier) * (1 / 2)
          let sfItems : Obj JSVal := [("Snowflake", .num snowProb), ("Frost", .num frostProb)]
          let sfChoice := selectWeightedRandom sfItems (rng i)
          let j := i + swrDraws sfItems
          let sf : String × ℕ :=
            match sfChoice with
            | some s =>
              if s ≠ "" then (s, j)
              else (if rng j < (1 / 2 : ℚ) then "Snowflake" else "Frost", j + 1)
            | none => (if rng j < (1 / 2 : ℚ) then "Snowflake" else "Frost", j + 1)
          let under : String := if rng sf.2 < (1 / 2 : ℚ) then "Blanket" else "Varnish Roan"
          (agePre ++ " " ++ sf.1 ++ " " ++ under, sf.2 + 1)
      else ("", i)
    let lpPatternName := named.1
    let j := named.2
    if lpPatternName ≠ "" then
      if !jsIncludes (jsToLower (joinParts parts)) (jsToLower lpPatternName) then
        (parts ++ [lpPatternName],
          if !(parts ++ [lpPatternName]).any (fun p => jsIncludes (jsToLower p) "gray") then
            lpPatternName
          else key,
          true, j)
      else (parts, key, true, j)
    else (parts, key, true, j)
  else (parts, key, false, i)

/-- Gray color name by age band (lines 979-996): Steel or Rose tone and the
dapple, white and fleabitten bands. -/
def grayName (baseColor : String) (age : ℚ) : String :=
  let tone :=
    if baseColor = "Black" || baseColor = "Bay" then "Steel"
    else if baseColor = "Chestnut" || baseColor = "Mushroom Chestnut" then "Rose"
    else ""
  let gp :=
    if age ≤ 3 then jsTrim (tone ++ " Gray")
    else if age ≤ 6 then jsTrim (tone ++ " Dark Dapple Gray")
    else if age ≤ 9 then jsTrim (tone ++ " Light Dapple Gray")
    else if age ≤ 12 then "White Gray"
    else "Fleabitten Gray"
  if tone = "" && age ≤ 9 then jsTrim (tone ++ " Gray") else gp

/-- Gray (lines 977-1010): overrides the color by age band and rolls the
bloody-shoulder body marking; returns parts, key, the bloody-shoulder flag and
the next random index. -/
def grayStage (g : Genotype) (p? : Option BreedProfile) (baseColor : String)
    (age : ℚ) (allWhite : Bool) (parts : List String) (key : String)
    (rng : ℕ → ℚ) (i : ℕ) : List String × String × Bool × ℕ :=
  if hasAllele g "G_Gray" "G" && !allWhite then
    let gp2 := grayName baseColor age
    let chance := (1 / 1000 : ℚ) *
      advMult p? (fun a => a.bloody_shoulder_probability_multiplier)
    ([gp2], gp2, decide (rng i < chance), i + 1)
  else (parts, key, false, i)

/-- Rabicano (lines 1013-1021): appended unless gray or all-white. -/
def rabicanoStage (g : Genotype) (allWhite : Bool) (parts : List String) :
    List String :=
  if g.rabicano = some true && !allWhite &&
      !(parts.any (fun p => jsIncludes (jsToLower p) "gray")) then
    if !jsIncludes (jsToLower (joinParts parts)) "rabicano" then parts ++ ["Rabicano"]
    else parts
  else parts

/-- Dun primitive-marking suffix (lines 1024-1034). -/
def dunPrimStage (dunDesc : String) (allWhite : Bool) (parts : List String) :
    List String :=
  if dunDesc ≠ "" &&
      !(parts.any (fun p => jsIncludes (jsToLower p) "dun" && !jsIncludes p "(")) &&
      !jsIncludes (joinParts parts) dunDesc &&
      !allWhite &&
      !(parts.any (fun p => jsIncludes (jsToLower p) "gray")) then
    parts ++ [dunDesc]
  else parts

/-- Deduplication of the color parts (lines 1038-1059): keyed by the last word
of each part, keeping the longer phrasing on a clash. -/
def dedupStep (acc : List String × List String) (part : String) :
    List String × List String :=
  let uniq := acc.1
  let seen := acc.2
  if part ≠ "" && jsTrim part ≠ "" then
    let primaryTerm := ((jsSplitCh part ' ').map jsToLower).getLastD ""
    if !seen.contains primaryTerm then
      (uniq ++ [jsTrim part], seen ++ [primaryTerm])
    else
      match uniq.findIdx? (fun p => jsEndsWith (jsToLower p) primaryTerm) with
      | some idx =>
        if (jsSplitCh part ' ').length > (jsSplitCh (uniq.getD idx "") ' ').length then
          (uniq.set idx (jsTrim part), seen)
        else (uniq, seen)
      | none => (uniq, seen)
  else (uniq, seen)

/-- Deduplicated color parts. -/
def dedupParts (parts : List String) : List String :=
  (parts.foldl dedupStep ([], [])).1

/-- Reordering (lines 1062-1118): sooty and shade leads first, then the main
color term, then the remaining descriptors, deduplicated by value. -/
def reorderStage (shade : String) (allWhite : Bool) (parts : List String) :
    List String :=
  if parts.length > 1 && !allWhite && !jsIncludes (jsToLower (parts.headD "")) "gray" then
    let mainColorPart :=
      (parts.find? (fun p =>
        !jsStartsWith (jsToLower p) "sooty" &&
        !(shade ≠ "" && jsStartsWith (jsToLower p) (jsToLower shade) && p ≠ shade) &&
        !(["pangare", "flaxen", "rabicano"].contains (jsToLower p)) &&
        !jsIncludes (jsToLower p) "dun (" &&
        !jsIncludes (jsToLower p) "white" &&
        !jsIncludes (jsToLower p) "overo" &&
        !jsIncludes (jsToLower p) "tobiano" &&
        !jsIncludes (jsToLower p) "sabino" &&
        !jsIncludes (jsToLower p) "appaloosa")).getD (parts.headD "")
    let sootyLead := parts.find? (fun p => jsToLower p = "sooty")
    let shadeLead :=
      if shade ≠ "" && jsToLower shade ≠ "standard" && jsToLower shade ≠ "medium" then
        parts.find? (fun p =>
          jsStartsWith (jsToLower p) (jsToLower shade) &&
          jsIncludes (jsToLower p) (jsToLower ((jsSplitCh mainColorPart ' ').getLastD "")))
      else none
    let otherDescriptors := parts.filter
      (fun p => p ≠ mainColorPart && sootyLead ≠ some p && shadeLead ≠ some p)
    let ordered :=
      (match sootyLead with
        | some sp => if sp ≠ mainColorPart && shadeLead ≠ some sp then [sp] else []
        | none => []) ++ [mainColorPart] ++ otherDescriptors
    ordered.foldl (fun acc v => if v ≠ "" && !acc.contains v then acc ++ [v] else acc) []
  else parts

/-- Phenotypic markings object. -/
structure Markings : Type where
  face : String
  legLF : String
  legRF : String
  legLH : String
  legRH : String
  mottling : Bool := false
  striping : Bool := false
  bloody_shoulder : Bool := false
deriving DecidableEq, Repr

/-- One leg of the marking loop (lines 1144-1157): roll against the general
probability while under the cap, then draw a marking type. -/
def legRoll (lsp : Obj JSVal) (gp maxLegs : ℚ) (rng : ℕ → ℚ)
    (st : ℕ × ℕ) : String × ℕ × ℕ :=
  let count := st.1
  let i := st.2
  if (count : ℚ) < maxLegs then
    if rng i < gp then
      let m :=
        match selectWeightedRandom lsp (rng (i + 1)) with
        | some s => if s = "" then "none" else s
        | none => "none"
      let j := i + 1 + swrDraws lsp
      (m, (if m ≠ "none" then count + 1 else count), j)
    else ("none", count, i + 1)
  else ("none", count, i)

/-- Marking determination (lines 1129-1159): face then the four legs in order. -/
def markingsStage (p? : Option BreedProfile) (rng : ℕ → ℚ) (i : ℕ) :
    String × (String × String × String × String) × ℕ :=
  match p? with
  | none => ("none", ("none", "none", "none", "none"), i)
  | some p =>
    match p.marking_bias with
    | none => ("none", ("none", "none", "none", "none"), i)
    | some mb =>
      let faceStep : String × ℕ :=
        match mb.face with
        | some fw =>
          (match selectWeightedRandom fw (rng i) with
            | some s => if s = "" then "none" else s
            | none => "none", i + swrDraws fw)
        | none => ("none", i)
      let face := faceStep.1
      let i1 := faceStep.2
      match mb.leg_specific_probabilities, mb.legs_general_probability with
      | some lsp, some (.num gp) =>
        if lsp.length > 0 then
          let maxLegs := mb.max_legs_marked.getD 4
          let r1 := legRoll lsp gp maxLegs rng (0, i1)
          let r2 := legRoll lsp gp maxLegs rng (r1.2.1, r1.2.2)
          let r3 := legRoll lsp gp maxLegs rng (r2.2.1, r2.2.2)
          let r4 := legRoll lsp gp maxLegs rng (r3.2.1, r3.2.2)
          (face, (r1.1, r2.1, r3.1, r4.1), r4.2.2)
        else (face, ("none", "none", "none", "none"), i1)
      | _, _ => (face, ("none", "none", "none", "none"), i1)

/-- Result of determinePhenotype. -/
structure PhenotypeResult : Type where
  final_display_color : String
  phenotypic_markings : Markings
  determined_shade : String
deriving DecidableEq, Repr

/-- Profile-independent first half of determinePhenotype (lines 394-671): the
base coat and the dilution pipeline through pearl; returns the base color, the
chestnut flag, the color state and the dun primitive-marking descriptor. -/
def dilutionPipeline (g : Genotype) : String × Bool × ColorState × String :=
  let bc := baseCoat g
  let baseColor := bc.1
  let isChestnutBase := bc.2
  let m := mushroomStage g isChestnutBase (ColorState.mk "" baseColor)
  let mushHandled := m.2
  let cs2 := creamStage g baseColor m.1
  let d := dunStage g baseColor cs2
  let dunDesc := d.2
  let cs4 := champagneStage g baseColor isChestnutBase d.1
  let cs5 := silverStage g baseColor isChestnutBase cs4
  let cs6 :=
    if !mushHandled && cs5.color ≠ "Mushroom Pearl" then
      applyPearlDilution (if cs5.color = "" then baseColor else cs5.color)
        (if cs5.key = "" then baseColor else cs5.key) g baseColor
    else cs5
  (baseColor, isChestnutBase, cs6, dunDesc)

/-- Embedding of determinePhenotype on a present genotype object: the full
sequential dilution pipeline followed by assembly and markings. -/
def determinePhenotype (g : Genotype) (p? : Option BreedProfile) (age : ℚ)
    (rng : ℕ → ℚ) : PhenotypeResult :=
  let pre := dilutionPipeline g
  let baseColor := pre.1
  let isChestnutBase := pre.2.1
  let cs6 := pre.2.2.1
  let dunDesc := pre.2.2.2
  let sh := determineShade p? cs6.key baseColor (rng 0)
  let i1 := sh.2
  let shade := shadeOrStandard sh.1
  let cs7 := shadeApply shade cs6
  let cs8 := sootyStage g cs7
  let parts1 := flaxenStage g isChestnutBase cs8.color [cs8.color]
  let parts2 := pangareStage g parts1
  let ro := roanStage g baseColor shade parts2 cs8.key
  let w := whiteStage g ro.1 ro.2
  let allWhite := w.2.2
  let lp := lpStage g p? age allWhite w.1 w.2.1 rng i1
  let gr := grayStage g p? baseColor age allWhite lp.1 lp.2.1 rng lp.2.2.2
  let parts7 := rabicanoStage g allWhite gr.1
  let parts8 := dunPrimStage dunDesc allWhite parts7
  let parts9 := dedupParts parts8
  let partsA := reorderStage shade allWhite parts9
  let fdc0 := jsTrim (collapseSpaces (joinParts partsA))
  let final_display_color :=
    if jsTrim fdc0 = "" then (if baseColor ≠ "" then baseColor else "Undefined Phenotype")
    else fdc0
  let mk := markingsStage p? rng gr.2.2.2
  { final_display_color := final_display_color,
    phenotypic_markings :=
      { face := mk.1, legLF := mk.2.1.1, legRF := mk.2.1.2.1, legLH := mk.2.1.2.2.1,
        legRH := mk.2.1.2.2.2, mottling := lp.2.2.1, striping := lp.2.2.1,
        bloody_shoulder := gr.2.2.1 },
    determined_shade := shade }

/-- Embedding of the determinePhenotype entry point on a possibly missing
genotype: a null or undefined genotype makes the very first locus access throw
a TypeError, modelled as an error result. -/
def determinePhenotypeJS (g? : Option Genotype) (p? : Option BreedProfile)
    (age : ℚ) (rng : ℕ → ℚ) : Except String PhenotypeResult :=
  match g? with
  | none => .error "TypeError: cannot read properties of null"
  | some g => .ok (determinePhenotype g p? age rng)

/-
  calculateFoalGenetics (geneticsEngine.js lines 1179-1435).
  Parents are raw genotype objects whose values may be strings or booleans.
-/

/-- Truthiness of a genotype object entry. -/
def truthyGeno : Option GenoVal → Bool
  | some (.str s) => s != ""
  | some (.bool b) => b
  | none => false

/-- Number of Math.random draws a getParentAllele call consumes: one when the
pair is a usable string, none otherwise. -/
def parentDraws : Option GenoVal → ℕ
  | some (.str s) => if s ≠ "" ∧ jsIncludes s "/" then 1 else 0
  | _ => 0

/-- Embedding of getParentAllele (lines 1201-1211): sample one allele uniformly
from the pair, null on a missing or malformed pair. -/
def getParentAllele (v : Option GenoVal) (r : ℚ) : Option String :=
  match v with
  | some (.str s) =>
    if s ≠ "" ∧ jsIncludes s "/" then
      let alleles := jsSplitCh s '/'
      alleles.get? (Int.floor (r * alleles.length)).toNat
    else none
  | _ => none

/-- Recessive-like tokens of combineAlleles (lines 1216-1236). -/
def recessiveLikes : List String :=
  ["n", "w", "patn1", "nd1", "nd2", "lp", "g", "rn", "to", "o", "sb1", "mu",
   "e", "a", "ch", "cr", "z", "prl", "d"]

/-- Dominant-like tokens of combineAlleles (lines 1255-1267). -/
def dominantLikes : List String :=
  ["Ch", "Cr", "Z", "Prl", "D", "Mu", "Lp", "Rn", "To", "O", "Sb1"]

/-- Embedding of combineAlleles (lines 1213-1281) on two sampled alleles. -/
def combineAlleles (a1 a2 : String) : String :=
  if !recessiveLikes.contains (jsToLower a1) && recessiveLikes.contains (jsToLower a2) then
    a1 ++ "/" ++ a2
  else if recessiveLikes.contains (jsToLower a1) && !recessiveLikes.contains (jsToLower a2) then
    a2 ++ "/" ++ a1
  else
    match (["W", "SW", "EDXW"] : List String).findSome? (fun pre =>
      if jsStartsWith a1 pre && a1 ≠ a2 && a2 = "w" then some (a1 ++ "/" ++ a2)
      else if jsStartsWith a2 pre && a2 ≠ a1 && a1 = "w" then some (a2 ++ "/" ++ a1)
      else none) with
    | some res => res
    | none =>
      if dominantLikes.contains a1 && (a2 = "n" || a2 = jsToLower a1) then
        a1 ++ "/" ++ a2
      else if dominantLikes.contains a2 && (a1 = "n" || a1 = jsToLower a2) then
        a2 ++ "/" ++ a1
      else if jsStrLt a2 a1 then a2 ++ "/" ++ a1 else a1 ++ "/" ++ a2

/-- Allowed-pair constraint for a gene inside the sampling loop: null when the
profile declares no allowed_alleles table at all. -/
def allowedCheckOf (p : BreedProfile) (gene : String) : Option (List String) :=
  match p.allowed_alleles with
  | none => none
  | some aa => some ((objGet aa gene).getD [])

/-- Disallowed pairs for a gene, defaulting to the empty list. -/
def disallowedListOf (p : BreedProfile) (gene : String) : List String :=
  match p.disallowed_combinations with
  | none => []
  | some d => (objGet d gene).getD []

/-- Up to ten gamete-sampling attempts for one gene (lines 1300-1331): sample
an allele from each parent, combine, and retry on a constraint violation. -/
def attemptLoop (sPair dPair : GenoVal) (allowed? : Option (List String))
    (disallowed : List String) (rng : ℕ → ℚ) : ℕ → ℕ → Option String × ℕ
  | 0, i => (none, i)
  | fuel + 1, i =>
    let sA := getParentAllele (some sPair) (rng i)
    let i1 := i + parentDraws (some sPair)
    let dA := getParentAllele (some dPair) (rng i1)
    let i2 := i1 + parentDraws (some dPair)
    match sA, dA with
    | some sa, some da =>
      let pair := combineAlleles sa da
      if pair = "" then (none, i2)
      else
        match allowed? with
        | some lst =>
          if !lst.contains pair then attemptLoop sPair dPair allowed? disallowed rng fuel i2
          else if disallowed.contains pair then
            attemptLoop sPair dPair allowed? disallowed rng fuel i2
          else (some pair, i2)
        | none =>
          if disallowed.contains pair then
            attemptLoop sPair dPair allowed? disallowed rng fuel i2
          else (some pair, i2)
    | _, _ => (none, i2)

/-- Canonical recessive homozygous pairs for the inheritance fallback
(lines 1360-1379). -/
def recessivePairs : List String :=
  ["n/n", "w/w", "e/e", "a/a", "g/g", "rn/rn", "lp/lp", "to/to", "o/o",
   "sb1/sb1", "d/d", "nd2/nd2", "patn1/patn1", "ch/ch", "cr/cr", "z/z",
   "prl/prl", "mu/mu"]

/-- Per-gene inheritance (lines 1290-1393): direct sampling with retries, then
the allele_weights fallback, then the canonical-recessive or first-allowed
fallback, else omission with a warning. -/
def inheritGene (sire dam : Obj GenoVal) (p : BreedProfile) (rng : ℕ → ℚ)
    (gene : String) (acc : Obj GenoVal × List String × ℕ) :
    Obj GenoVal × List String × ℕ :=
  let geno := acc.1
  let diags := acc.2.1
  let i := acc.2.2
  let sPair := objGet sire gene
  let dPair := objGet dam gene
  let direct : Option String × ℕ :=
    if truthyGeno sPair ∧ truthyGeno dPair then
      match sPair, dPair with
      | some sv, some dv =>
        attemptLoop sv dv (allowedCheckOf p gene) (disallowedListOf p gene) rng 10 i
      | _, _ => (none, i)
    else (none, i)
  match direct.1 with
  | some pair => (objSet geno gene (.str pair), diags, direct.2)
  | none =>
    let i2 := direct.2
    let allowedForFoal : List String :=
      match p.allowed_alleles with
      | none => []
      | some aa => (objGet aa gene).getD []
    let disallowed := disallowedListOf p gene
    let weighted : Option (Option String × ℕ) :=
      match p.allele_weights with
      | none => none
      | some aw =>
        match objGet aw gene with
        | none => none
        | some weights =>
          some (selectWeightedRandom weights (rng i2), i2 + swrDraws weights)
    match weighted with
    | some (some fb, i3) =>
      if fb ≠ "" ∧ !disallowed.contains fb then (objSet geno gene (.str fb), diags, i3)
      else
        let fb2 : Option String :=
          match recessivePairs.find? (fun q => allowedForFoal.contains q) with
          | some q => some q
          | none => if allowedForFoal.length > 0 then some (allowedForFoal.headD "") else none
        match fb2 with
        | some s =>
          if s ≠ "" ∧ !disallowed.contains s then (objSet geno gene (.str s), diags, i3)
          else (geno, diags ++ ["no valid allele pair for " ++ gene], i3)
        | none => (geno, diags ++ ["no valid allele pair for " ++ gene], i3)
    | rest =>
      let i3 := match rest with
        | some (_, j) => j
        | none => i2
      let fb2 : Option String :=
        match recessivePairs.find? (fun q => allowedForFoal.contains q) with
        | some q => some q
        | none => if allowedForFoal.length > 0 then some (allowedForFoal.headD "") else none
      match fb2 with
      | some s =>
        if s ≠ "" ∧ !disallowed.contains s then (objSet geno gene (.str s), diags, i3)
        else (geno, diags ++ ["no valid allele pair for " ++ gene], i3)
      | none => (geno, diags ++ ["no valid allele pair for " ++ gene], i3)

/-- Names treated as boolean modifiers by the inheritance code. -/
def booleanModifierNames : List String := ["sooty", "flaxen", "pangare", "rabicano"]

/-- Deduplicating union of the two parents gene-key lists, in insertion order,
as the Set spread on line 1286. -/
def dedupKeys (ks : List String) : List String :=
  ks.foldl (fun acc k => if acc.contains k then acc else acc ++ [k]) []

/-- Per-modifier inheritance (lines 1401-1430). -/
def inheritModifier (sire dam : Obj GenoVal) (bmp : Obj JSVal) (rng : ℕ → ℚ)
    (modName : String) (acc : Obj GenoVal × List String × ℕ) :
    Obj GenoVal × List String × ℕ :=
  if !booleanModifierNames.contains modName then acc
  else
    let geno := acc.1
    let diags := acc.2.1
    let i := acc.2.2
    let sv := objGet sire modName
    let dv := objGet dam modName
    let prev := objGet bmp modName
    let prevQ : ℚ :=
      match prev with
      | some (.num q) => q
      | _ => 0
    let prevLt : ℚ → Bool := fun r =>
      match prev with
      | some (.num q) => decide (r < q)
      | _ => false
    if sv = some (.bool true) ∧ dv = some (.bool true) then
      (objSet geno modName (.bool true), diags, i)
    else if sv = some (.bool false) ∧ dv = some (.bool false) then
      (objSet geno modName (.bool false), diags, i)
    else if sv.isSome ∧ dv.isSome then
      (objSet geno modName (.bool (decide (rng i < (1 / 2 : ℚ)))), diags, i + 1)
    else if sv.isSome then
      if rng i < (1 / 2 : ℚ) then (objSet geno modName (sv.getD (.bool false)), diags, i + 1)
      else (objSet geno modName (.bool (decide (rng (i + 1) < prevQ))), diags, i + 2)
    else if dv.isSome then
      if rng i < (1 / 2 : ℚ) then (objSet geno modName (dv.getD (.bool false)), diags, i + 1)
      else (objSet geno modName (.bool (decide (rng (i + 1) < prevQ))), diags, i + 2)
    else
      match prev with
      | some (.num _) => (objSet geno modName (.bool (prevLt (rng i))), diags, i + 1)
      | _ => (objSet geno modName (.bool false), diags, i)

/-- Embedding of calculateFoalGenetics: none for any argument stands for a
missing or null value; returns the foal genotype and the diagnostics. -/
def calculateFoalGenetics (sire? dam? : Option (Obj GenoVal))
    (p? : Option BreedProfile) (rng : ℕ → ℚ) : Obj GenoVal × List String :=
  match sire?, dam?, p? with
  | some sire, some dam, some p =>
    let genesToInherit : List String :=
      match p.allowed_alleles with
      | some aa => aa.map (fun q => q.1)
      | none =>
        (dedupKeys (sire.map (fun q => q.1) ++ dam.map (fun q => q.1))).filter
          (fun k => !booleanModifierNames.contains k)
    let s1 := genesToInherit.foldl (fun acc gene => inheritGene sire dam p rng gene acc)
      ([], [], 0)
    let s2 :=
      match p.boolean_modifiers_prevalence with
      | some bmp =>
        (bmp.map (fun q : String × JSVal => q.1)).foldl
          (fun acc modName => inheritModifier sire dam bmp rng modName acc) s1
      | none => s1
    (s2.1, s2.2.1)
  | _, _, _ =>
    ([], ["Missing sire, dam, or foal breed profile for foal genetics calculation."])

/-
  Concrete scenario objects used by the claims.
-/

/-- Genotype of the champagne scenario of the source tests: chestnut base with
a single champagne allele and no cream or dun. -/
def champagneScenarioGenotype : Genotype :=
  { loci := [("E_Extension", "e/e"), ("A_Agouti", "a/a"), ("Cr_Cream", "n/n"),
             ("D_Dun", "n/n"), ("CH_Champagne", "Ch/n")] }

/-- Genotype of the mushroom-pearl scenario: chestnut base with mushroom,
homozygous pearl and no cream, champagne or dun. -/
def mushroomPearlGenotype : Genotype :=
  { loci := [("E_Extension", "e/e"), ("MFSD12_Mushroom", "Mu/n"),
             ("PRL_Pearl", "prl/prl"), ("Cr_Cream", "n/n"), ("A_Agouti", "a/a"),
             ("CH_Champagne", "n/n"), ("D_Dun", "n/n")] }

/-- Parent genotype homozygous recessive at Extension. -/
def eeParent : Obj GenoVal := [("E_Extension", .str "e/e")]

/-- Foal breed profile that both allows and disallows the e/e pair at
Extension: a contradictory configuration. -/
def contradictoryFoalProfile : BreedProfile :=
  { allowed_alleles := some [("E_Extension", ["e/e"])],
    disallowed_combinations := some [("E_Extension", ["e/e"])] }

/-- Foal breed profile that allows only e/e at Extension, with no disallowed
table. -/
def eeAllowedProfile : BreedProfile :=
  { allowed_alleles := some [("E_Extension", ["e/e"])] }

/-- Invariant: no locus of the genotype object holds a disallowed allele pair. -/
def NoDisallowed (p : BreedProfile) (geno : Obj GenoVal) : Prop :=
  ∀ gene pair, objGet geno gene = some (.str pair) → disallowedOf p gene pair = false

/-- Well-formed parent genotype: the four boolean-modifier keys never hold an
allele-pair string, as the data model prescribes. -/
def ModifiersWellFormed (o : Obj GenoVal) : Prop :=
  ∀ m, booleanModifierNames.contains m = true →
    ∀ s, objGet o m ≠ some (GenoVal.str s)

/-
  Helper lemmas.
-/

theorem objGet_objSet {α : Type} (o : Obj α) (k k2 : String) (v : α) :
    objGet (objSet o k v) k2 = if k2 = k then some v else objGet o k2 := by
  induction o with
  | nil =>
    by_cases h : k2 = k
    · subst h; simp [objGet, objSet]
    · have h' : ¬ k = k2 := fun hh => h hh.symm
      simp [objGet, objSet, h, h']
  | cons hd tl ih =>
    obtain ⟨k1, v1⟩ := hd
    by_cases h1 : k1 = k
    · subst h1
      by_cases h2 : k2 = k1
      · subst h2; simp [objGet, objSet]
      · have h2' : ¬ k1 = k2 := fun hh => h2 hh.symm
        simp [objGet, objSet, h2, h2']
    · by_cases h2 : k1 = k2
      · subst h2
        simp [objGet, objSet, h1]
      · simp [objGet, objSet, h1, h2, ih]

theorem swrLoop_mem (items : Obj JSVal) (r : ℚ) (k : String)
    (h : swrLoop items r = some k) : k ∈ items.map Prod.fst := by
  induction items generalizing r with
  | nil => simp [swrLoop] at h
  | cons hd tl ih =>
    unfold swrLoop at h
    split at h
    · split at h
      · injection h with h
        simp [← h]
      · exact List.mem_cons_of_mem _ (ih _ h)
    · exact List.mem_cons_of_mem _ (ih _ h)

theorem sumOfWeights_append (xs ys : Obj JSVal) :
    sumOfWeights (xs ++ ys) = sumOfWeights xs + sumOfWeights ys := by
  unfold sumOfWeights
  have step : ∀ (l : Obj JSVal) (a : ℚ),
      l.foldl (fun acc p => match validWeight p.2 with
        | some q => acc + q
        | none => acc) a =
      a + l.foldl (fun acc p => match validWeight p.2 with
        | some q => acc + q
        | none => acc) 0 := by
    intro l
    induction l with
    | nil => intro a; simp
    | cons hd tl ih =>
      intro a
      simp only [List.foldl_cons]
      cases hv : validWeight hd.2 with
      | some w =>
        rw [ih (a + w), ih (0 + w)]
        ring
      | none =>
        rw [ih a]
  rw [List.foldl_append, step]

theorem sumOfWeights_of_no_valid (items : Obj JSVal)
    (h : ∀ p ∈ items, validWeight p.2 = none) : sumOfWeights items = 0 := by
  induction items with
  | nil => rfl
  | cons hd tl ih =>
    have : sumOfWeights (hd :: tl) = sumOfWeights ([hd] ++ tl) := rfl
    rw [this, sumOfWeights_append]
    have h1 : sumOfWeights [hd] = 0 := by
      unfold sumOfWeights
      simp [h hd (by simp)]
    rw [h1, ih (fun p hp => h p (List.mem_cons_of_mem _ hp))]
    ring

theorem validKeys_subset (items : Obj JSVal) (k : String)
    (h : k ∈ validKeys items) : k ∈ items.map Prod.fst := by
  unfold validKeys at h
  rcases List.mem_map.mp h with ⟨p, hp, rfl⟩
  exact List.mem_map.mpr ⟨p, List.mem_of_mem_filter hp, rfl⟩

theorem validKeys_ne_nil_of_sum_ne_zero (items : Obj JSVal)
    (h : sumOfWeights items ≠ 0) : validKeys items ≠ [] := by
  intro hnil
  apply h
  apply sumOfWeights_of_no_valid
  intro p hp
  cases hv : validWeight p.2 with
  | none => rfl
  | some w =>
    exfalso
    have : p ∈ items.filter (fun q => (validWeight q.2).isSome) :=
      List.mem_filter.mpr ⟨hp, by simp [hv]⟩
    have : p.1 ∈ validKeys items := List.mem_map.mpr ⟨p, this, rfl⟩
    rw [hnil] at this
    simp at this

/-- Claim C8: on a non-empty weight map whose valid weights sum to zero,
selectWeightedRandom returns the first declared key for every random draw. -/
theorem selectWeightedRandom_zero_total (k : String) (v : JSVal)
    (rest : Obj JSVal) (r : ℚ) (h : sumOfWeights ((k, v) :: rest) = 0) :
    selectWeightedRandom ((k, v) :: rest) r = some k := by
  unfold selectWeightedRandom
  simp [h]

/-- Witness for C8: the spec instance with weights a:0 and b:0 returns a. -/
theorem selectWeightedRandom_zero_total_witness :
    selectWeightedRandom [("a", JSVal.num 0), ("b", JSVal.num 0)] (7 / 10) = some "a" :=
  selectWeightedRandom_zero_total "a" (JSVal.num 0) [("b", JSVal.num 0)] (7 / 10)
    (by norm_num [sumOfWeights, validWeight])

/-- Claim C9: on any non-empty weight map and any random draw,
selectWeightedRandom returns some key of the map, never null. -/
theorem selectWeightedRandom_total_mem (k : String) (v : JSVal)
    (rest : Obj JSVal) (r : ℚ) :
    ∃ key, selectWeightedRandom ((k, v) :: rest) r = some key ∧
      key ∈ ((k, v) :: rest).map Prod.fst := by
  by_cases hs : sumOfWeights ((k, v) :: rest) = 0
  · exact ⟨k, selectWeightedRandom_zero_total k v rest r hs, by simp⟩
  · unfold selectWeightedRandom
    simp only [List.isEmpty_cons, Bool.false_eq_true, if_false, hs, if_neg hs]
    cases hloop : swrLoop ((k, v) :: rest) (r * sumOfWeights ((k, v) :: rest)) with
    | some k2 =>
      exact ⟨k2, rfl, swrLoop_mem _ _ _ hloop⟩
    | none =>
      have hvk := validKeys_ne_nil_of_sum_ne_zero _ hs
      refine ⟨(validKeys ((k, v) :: rest)).getLast hvk,
        ?_, validKeys_subset _ _ (List.getLast_mem hvk)⟩
      rw [List.getLast?_eq_getLast_of_ne_nil hvk]

theorem noDisallowed_objSet_str (p : BreedProfile) (geno : Obj GenoVal)
    (gene pair : String) (hacc : NoDisallowed p geno)
    (hdis : disallowedOf p gene pair = false) :
    NoDisallowed p (objSet geno gene (.str pair)) := by
  intro g2 p2 hget
  rw [objGet_objSet] at hget
  by_cases hg : g2 = gene
  · rw [if_pos hg] at hget
    injection hget with hget
    injection hget with hget
    subst hget
    subst hg
    exact hdis
  · rw [if_neg hg] at hget
    exact hacc _ _ hget

theorem noDisallowed_objSet_bool (p : BreedProfile) (geno : Obj GenoVal)
    (name : String) (b : Bool) (hacc : NoDisallowed p geno) :
    NoDisallowed p (objSet geno name (.bool b)) := by
  intro g2 p2 hget
  rw [objGet_objSet] at hget
  by_cases hg : g2 = name
  · rw [if_pos hg] at hget
    exact absurd hget (by simp)
  · rw [if_neg hg] at hget
    exact hacc _ _ hget

theorem genGeneLoop_invariant (p : BreedProfile) (rng : ℕ → ℚ)
    (entries : List (String × Obj JSVal)) (acc : Obj GenoVal × List String × ℕ)
    (hacc : NoDisallowed p acc.1) :
    NoDisallowed p (genGeneLoop p rng entries acc).1 := by
  induction entries generalizing acc with
  | nil => exact hacc
  | cons hd tl ih =>
    obtain ⟨gene, weights⟩ := hd
    obtain ⟨geno, diags, i⟩ := acc
    unfold genGeneLoop
    apply ih
    dsimp only at hacc ⊢
    cases h : selectWeightedRandom weights (rng i) with
    | none => exact hacc
    | some pair =>
      dsimp only
      by_cases hp : pair ≠ ""
      · rw [if_pos hp]
        by_cases hd2 : disallowedOf p gene pair
        · rw [if_pos hd2]; exact hacc
        · rw [if_neg hd2]
          exact noDisallowed_objSet_str p geno gene pair hacc (by simpa using hd2)
      · rw [if_neg hp]
        exact hacc

theorem genModifierLoop_invariant (p : BreedProfile) (rng : ℕ → ℚ)
    (entries : List (String × JSVal)) (acc : Obj GenoVal × List String × ℕ)
    (hacc : NoDisallowed p acc.1) :
    NoDisallowed p (genModifierLoop rng entries acc).1 := by
  induction entries generalizing acc with
  | nil => exact hacc
  | cons hd tl ih =>
    obtain ⟨name, prev⟩ := hd
    obtain ⟨geno, diags, i⟩ := acc
    unfold genModifierLoop
    apply ih
    dsimp only at hacc ⊢
    cases prev with
    | num q =>
      dsimp only
      by_cases hq : 0 ≤ q ∧ q ≤ 1
      · rw [if_pos hq]
        exact noDisallowed_objSet_bool p geno name _ hacc
      · rw [if_neg hq]
        exact noDisallowed_objSet_bool p geno name _ hacc
    | other =>
      exact noDisallowed_objSet_bool p geno name _ hacc

/-- Claim C7: for every breed profile and random stream, the generated
genotype never maps a locus to a pair in that locus disallowed set, and a
disallowed pick leaves the locus out with a warning and without a retry. -/
theorem generate_never_disallowed (p : BreedProfile) (rng : ℕ → ℚ) :
    (∀ gene pair,
      objGet (generateStoreHorseGenetics (some p) rng).1 gene = some (.str pair) →
      disallowedOf p gene pair = false) ∧
    (∀ gene weights geno diags i pair,
      selectWeightedRandom weights (rng i) = some pair → pair ≠ "" →
      disallowedOf p gene pair = true →
      genGeneLoop p rng [(gene, weights)] (geno, diags, i) =
        (geno, diags ++ ["disallowed allele pair " ++ pair ++ " for " ++ gene],
          i + swrDraws weights)) := by
  constructor
  · intro gene pair hget
    unfold generateStoreHorseGenetics at hget
    have base : ∀ (s1 : Obj GenoVal × List String × ℕ), NoDisallowed p s1.1 →
        NoDisallowed p
          (match p.boolean_modifiers_prevalence with
            | some bmp => genModifierLoop rng bmp s1
            | none =>
              (s1.1, s1.2.1 ++
                ["boolean_modifiers_prevalence not found or invalid in breed profile."],
                s1.2.2)).1 := by
      intro s1 hs1
      cases p.boolean_modifiers_prevalence with
      | some bmp => exact genModifierLoop_invariant p rng bmp s1 hs1
      | none => exact hs1
    have h1 : NoDisallowed p
        (match p.allele_weights with
          | some aw => genGeneLoop p rng aw ([], [], 0)
          | none =>
            (([] : Obj GenoVal),
              ["allele_weights not found or invalid in breed profile."], 0)).1 := by
      cases p.allele_weights with
      | some aw =>
        exact genGeneLoop_invariant p rng aw ([], [], 0) (by intro g2 p2 h; simp [objGet] at h)
      | none => intro g2 p2 h; simp [objGet] at h
    exact base _ h1 _ _ hget
  · intro gene weights geno diags i pair h1 h2 h3
    unfold genGeneLoop
    rw [h1]
    dsimp only
    rw [if_pos h2, if_pos h3]
    rfl

/-- Witness for C7: a disallowed pick is omitted with a warning, and a clean
pick lands in the genotype with its pair outside the disallowed set. -/
theorem generate_never_disallowed_witness :
    genGeneLoop
      { allele_weights := some [("g1", [("x/x", JSVal.num 1)])],
        disallowed_combinations := some [("g1", ["x/x"])] }
      (fun _ => 0) [("g1", [("x/x", JSVal.num 1)])] ([], [], 0) =
      ([], ["disallowed allele pair x/x for g1"], 1) ∧
    disallowedOf { allele_weights := some [("g1", [("x/x", JSVal.num 1)])] }
      "g1" "x/x" = false := by
  constructor
  · refine ((generate_never_disallowed
      { allele_weights := some [("g1", [("x/x", JSVal.num 1)])],
        disallowed_combinations := some [("g1", ["x/x"])] }
      (fun _ => 0)).2 "g1" [("x/x", JSVal.num 1)] [] [] 0 "x/x"
      ?_ (by decide) (by decide)).trans ?_
    · norm_num [selectWeightedRandom, sumOfWeights, validWeight, swrLoop]
    · norm_num [swrDraws, sumOfWeights, validWeight]
      decide
  · exact (generate_never_disallowed
      { allele_weights := some [("g1", [("x/x", JSVal.num 1)])] }
      (fun _ => 0)).1 "g1" "x/x"
      (by norm_num [generateStoreHorseGenetics, genGeneLoop, selectWeightedRandom,
        sumOfWeights, validWeight, swrLoop, swrDraws, disallowedOf, objGet, objSet])

theorem whiteStage_lethal (g : Genotype) (parts : List String) (key : String)
    (h : (getDominantWhiteAlleles g).any (fun w => lethalWhites.contains w) = true) :
    whiteStage g parts key = (["White"], "Dominant White", true) := by
  have hlen : (getDominantWhiteAlleles g).length > 0 := by
    rcases List.any_eq_true.mp h with ⟨a, ha, _⟩
    exact List.length_pos.mpr (List.ne_nil_of_mem ha)
  unfold whiteStage
  dsimp only
  rw [if_pos hlen, if_pos h]
  rfl

theorem lpStage_allWhite (g : Genotype) (p? : Option BreedProfile) (age : ℚ)
    (parts : List String) (key : String) (rng : ℕ → ℚ) (i : ℕ) :
    lpStage g p? age true parts key rng i = (parts, key, false, i) := by
  unfold lpStage
  simp

theorem grayStage_allWhite (g : Genotype) (p? : Option BreedProfile)
    (baseColor : String) (age : ℚ) (parts : List String) (key : String)
    (rng : ℕ → ℚ) (i : ℕ) :
    grayStage g p? baseColor age true parts key rng i = (parts, key, false, i) := by
  unfold grayStage
  simp

theorem rabicanoStage_allWhite (g : Genotype) (parts : List String) :
    rabicanoStage g true parts = parts := by
  unfold rabicanoStage
  simp

theorem dunPrimStage_allWhite (dunDesc : String) (parts : List String) :
    dunPrimStage dunDesc true parts = parts := by
  unfold dunPrimStage
  simp

theorem reorderStage_allWhite (shade : String) (parts : List String) :
    reorderStage shade true parts = parts := by
  unfold reorderStage
  simp

/-- Claim C2: a lethal-set dominant-white allele in the W_DominantWhite pair
forces the final display color to exactly White, for every other locus, every
breed profile, every age and every random stream. -/
theorem lethal_white_forces_white (g : Genotype) (p? : Option BreedProfile)
    (age : ℚ) (rng : ℕ → ℚ) (s : String)
    (hW : objGet g.loci "W_DominantWhite" = some s)
    (hl : (jsSplitCh s '/').any (fun a => lethalWhites.contains a) = true) :
    (determinePhenotype g p? age rng).final_display_color = "White" := by
  have hDW : (getDominantWhiteAlleles g).any (fun w => lethalWhites.contains w) = true := by
    rcases List.any_eq_true.mp hl with ⟨a, ha, hla⟩
    have hmem : a ∈ lethalWhites := by simpa using hla
    have hstart : (jsStartsWith a "W" && decide (a ≠ "w")) = true := by
      fin_cases hmem <;> decide
    have hs1 : ¬ (s = "" ∨ s = "w/w") := by
      rintro (rfl | rfl)
      · rw [show jsSplitCh "" '/' = [""] from by decide] at ha
        simp at ha
        subst ha
        exact absurd hmem (by decide)
      · rw [show jsSplitCh "w/w" '/' = ["w", "w"] from by decide] at ha
        simp at ha
        subst ha
        exact absurd hmem (by decide)
    apply List.any_eq_true.mpr
    refine ⟨a, ?_, hla⟩
    unfold getDominantWhiteAlleles
    rw [hW]
    dsimp only
    rw [if_neg hs1]
    exact List.mem_filter.mpr ⟨ha, hstart⟩
  unfold determinePhenotype
  dsimp only
  rw [whiteStage_lethal g _ _ hDW]
  dsimp only
  rw [lpStage_allWhite, grayStage_allWhite]
  dsimp only
  rw [rabicanoStage_allWhite, dunPrimStage_allWhite]
  rw [show dedupParts ["White"] = ["White"] from by decide, reorderStage_allWhite]
  rw [show jsTrim (collapseSpaces (joinParts ["White"])) = "White" from by decide]
  rw [if_neg (by decide : ¬ jsTrim "White" = "")]

/-- Witness for C2: a concrete W2 carrier resolves to White. -/
theorem lethal_white_forces_white_witness :
    (determinePhenotype
      { loci := [("E_Extension", "E/e"), ("A_Agouti", "A/a"),
                 ("W_DominantWhite", "W2/w"), ("G_Gray", "G/g"),
                 ("Rn_Roan", "Rn/n")] }
      none 5 (fun _ => 0)).final_display_color = "White" :=
  lethal_white_forces_white _ none 5 (fun _ => 0) "W2/w" (by decide) (by decide)

theorem whiteStage_snd (g : Genotype) (parts : List String) (key : String)
    (h : (getDominantWhiteAlleles g).any (fun w => lethalWhites.contains w) = false) :
    (whiteStage g parts key).2.2 = false := by
  unfold whiteStage
  dsimp only
  rw [h]
  by_cases hlen : (getDominantWhiteAlleles g).length > 0
  · rw [if_pos hlen]
    by_cases h20 : ((getDominantWhiteAlleles g).contains "W20") = true
    · rw [if_pos h20]
      rfl
    · rw [if_neg h20]
      rfl
  · rw [if_neg hlen]
    rfl

theorem grayStage_G (g : Genotype) (p? : Option BreedProfile) (baseColor : String)
    (age : ℚ) (parts : List String) (key : String) (rng : ℕ → ℚ) (i : ℕ)
    (hG : hasAllele g "G_Gray" "G" = true) :
    grayStage g p? baseColor age false parts key rng i =
      ([grayName baseColor age], grayName baseColor age,
        decide (rng i < (1 / 1000 : ℚ) *
          advMult p? (fun a => a.bloody_shoulder_probability_multiplier)), i + 1) := by
  unfold grayStage
  rw [if_pos (by rw [hG]; rfl : (hasAllele g "G_Gray" "G" && !false) = true)]

theorem rabicanoStage_gray (g : Genotype) (parts : List String)
    (h : (parts.any (fun p => jsIncludes (jsToLower p) "gray")) = true) :
    rabicanoStage g false parts = parts := by
  unfold rabicanoStage
  rw [h]
  simp

theorem dunPrimStage_gray (dunDesc : String) (parts : List String)
    (h : (parts.any (fun p => jsIncludes (jsToLower p) "gray")) = true) :
    dunPrimStage dunDesc false parts = parts := by
  unfold dunPrimStage
  rw [h]
  simp

theorem reorderStage_single (shade : String) (allWhite : Bool) (x : String) :
    reorderStage shade allWhite [x] = [x] := by
  unfold reorderStage
  rw [if_neg]
  intro hc
  simp at hc

theorem baseCoat_cases (g : Genotype) :
    baseCoat g = ("Chestnut", true) ∨ baseCoat g = ("Bay", false) ∨
      baseCoat g = ("Black", false) := by
  unfold baseCoat
  by_cases h1 : isHomozygous g "E_Extension" "e" = true
  · rw [if_pos h1]; left; rfl
  · rw [if_neg h1]
    by_cases h2 : hasAllele g "A_Agouti" "A" = true
    · rw [if_pos h2]; right; left; rfl
    · rw [if_neg h2]; right; right; rfl

theorem grayName_cases (bc : String) (age : ℚ)
    (hb : bc = "Chestnut" ∨ bc = "Bay" ∨ bc = "Black") :
    grayName bc age =
      (let tone := if bc = "Chestnut" then "Rose" else "Steel"
       if age ≤ 3 then tone ++ " Gray"
       else if age ≤ 6 then tone ++ " Dark Dapple Gray"
       else if age ≤ 9 then tone ++ " Light Dapple Gray"
       else if age ≤ 12 then "White Gray"
       else "Fleabitten Gray") := by
  rcases hb with rfl | rfl | rfl <;>
    simp [grayName,
      show jsTrim "Rose Gray" = "Rose Gray" from by decide,
      show jsTrim "Rose Dark Dapple Gray" = "Rose Dark Dapple Gray" from by decide,
      show jsTrim "Rose Light Dapple Gray" = "Rose Light Dapple Gray" from by decide,
      show jsTrim "Steel Gray" = "Steel Gray" from by decide,
      show jsTrim "Steel Dark Dapple Gray" = "Steel Dark Dapple Gray" from by decide,
      show jsTrim "Steel Light Dapple Gray" = "Steel Light Dapple Gray" from by decide]

/-- Claim C6: with a dominant gray allele and no lethal dominant-white allele,
the final display color is the age-banded gray with a Steel tone on a black
or bay base and a Rose tone on a chestnut base. -/
theorem gray_age_bands (g : Genotype) (p? : Option BreedProfile) (age : ℚ)
    (rng : ℕ → ℚ) (hG : hasAllele g "G_Gray" "G" = true)
    (hnl : (getDominantWhiteAlleles g).any (fun w => lethalWhites.contains w) = false) :
    (determinePhenotype g p? age rng).final_display_color =
      (let tone := if (baseCoat g).1 = "Chestnut" then "Rose" else "Steel"
       if age ≤ 3 then tone ++ " Gray"
       else if age ≤ 6 then tone ++ " Dark Dapple Gray"
       else if age ≤ 9 then tone ++ " Light Dapple Gray"
       else if age ≤ 12 then "White Gray"
       else "Fleabitten Gray") := by
  have tail : ∀ (bc : String) (icb : Bool), baseCoat g = (bc, icb) →
      (bc = "Chestnut" ∨ bc = "Bay" ∨ bc = "Black") →
      (determinePhenotype g p? age rng).final_display_color = grayName bc age := by
    intro bc icb hbc hb3
    have hgn := grayName_cases bc age hb3
    have hgray : ([grayName bc age].any (fun p => jsIncludes (jsToLower p) "gray")) = true := by
      rw [hgn]
      rcases hb3 with rfl | rfl | rfl <;>
        · dsimp only
          split <;> first
            | decide
            | (split <;> first
              | decide
              | (split <;> first
                | decide
                | (split <;> decide)))
    have htrim : jsTrim (grayName bc age) = grayName bc age ∧ grayName bc age ≠ "" ∧
        jsTrim (collapseSpaces (joinParts [grayName bc age])) = grayName bc age ∧
        dedupParts [grayName bc age] = [grayName bc age] := by
      rw [hgn]
      rcases hb3 with rfl | rfl | rfl <;>
        · dsimp only
          split <;> first
            | decide
            | (split <;> first
              | decide
              | (split <;> first
                | decide
                | (split <;> decide)))
    have hpre : (dilutionPipeline g).1 = bc := by
      rw [show (dilutionPipeline g).1 = (baseCoat g).1 from rfl, hbc]
    unfold determinePhenotype
    dsimp only
    rw [whiteStage_snd g _ _ hnl, hpre]
    rw [grayStage_G g p? bc age _ _ rng _ hG]
    dsimp only
    rw [rabicanoStage_gray g _ hgray, dunPrimStage_gray _ _ hgray]
    rw [htrim.2.2.2, reorderStage_single, htrim.2.2.1]
    rw [if_neg (fun hh => htrim.2.1 ((htrim.1).symm.trans hh))]
  rcases baseCoat_cases g with hbc | hbc | hbc
  · rw [tail "Chestnut" true hbc (Or.inl rfl), hbc,
      grayName_cases "Chestnut" age (Or.inl rfl)]
  · rw [tail "Bay" false hbc (Or.inr (Or.inl rfl)), hbc,
      grayName_cases "Bay" age (Or.inr (Or.inl rfl))]
  · rw [tail "Black" false hbc (Or.inr (Or.inr rfl)), hbc,
      grayName_cases "Black" age (Or.inr (Or.inr rfl))]

/-- Witness for C6: a black-based gray carrier at ages 0 and 13. -/
theorem gray_age_bands_witness :
    (determinePhenotype { loci := [("E_Extension", "E/e"), ("G_Gray", "G/g")] } none 0
      (fun _ => 0)).final_display_color = "Steel Gray" ∧
    (determinePhenotype { loci := [("E_Extension", "E/e"), ("G_Gray", "G/g")] } none 13
      (fun _ => 0)).final_display_color = "Fleabitten Gray" := by
  constructor
  · refine (gray_age_bands _ none 0 (fun _ => 0) (by decide) (by decide)).trans ?_
    rw [show baseCoat { loci := [("E_Extension", "E/e"), ("G_Gray", "G/g")] } =
      ("Black", false) from by decide]
    norm_num
    decide
  · refine (gray_age_bands _ none 13 (fun _ => 0) (by decide) (by decide)).trans ?_
    rw [show baseCoat { loci := [("E_Extension", "E/e"), ("G_Gray", "G/g")] } =
      ("Black", false) from by decide]
    norm_num

theorem swr_single (k : String) (w : ℚ) (hw : 0 < w) (r : ℚ) :
    selectWeightedRandom [(k, JSVal.num w)] r = some k := by
  have hvw : validWeight (JSVal.num w) = some w := by
    simp [validWeight, le_of_lt hw]
  have hsum : sumOfWeights [(k, JSVal.num w)] = w := by
    simp [sumOfWeights, hvw]
  unfold selectWeightedRandom
  rw [hsum]
  rw [if_neg (by simp : ¬ ([(k, JSVal.num w)].isEmpty = true))]
  rw [if_neg (ne_of_gt hw)]
  unfold swrLoop
  rw [hvw]
  dsimp only
  by_cases hlt : r * w < w
  · rw [if_pos hlt]
  · rw [if_neg hlt]
    show (validKeys [(k, JSVal.num w)]).getLast? = some k
    have hvk : validKeys [(k, JSVal.num w)] = [k] := by
      simp [validKeys, hvw]
    rw [hvk]
    rfl

theorem lpStage_skip (g : Genotype)
    (hlp : objGet g.loci "LP_LeopardComplex" = none) (p? : Option BreedProfile)
    (age : ℚ) (allWhite : Bool) (parts : List String) (key : String)
    (rng : ℕ → ℚ) (i : ℕ) :
    lpStage g p? age allWhite parts key rng i = (parts, key, false, i) := by
  unfold lpStage
  rw [hlp]
  rfl

theorem grayStage_skip (g : Genotype) (hg : hasAllele g "G_Gray" "G" = false)
    (p? : Option BreedProfile) (baseColor : String) (age : ℚ) (allWhite : Bool)
    (parts : List String) (key : String) (rng : ℕ → ℚ) (i : ℕ) :
    grayStage g p? baseColor age allWhite parts key rng i = (parts, key, false, i) := by
  unfold grayStage
  rw [hg]
  rfl

/-- Claim C4: the champagne scenario genotype resolves to Gold Champagne under
any breed profile whose shade bias for Gold Champagne is the standard-only
table, at every age and for every random stream. -/
theorem champagne_scenario (p : BreedProfile) (sb : Obj (Obj JSVal)) (age : ℚ)
    (rng : ℕ → ℚ) (hsb : p.shade_bias = some sb)
    (hentry : objGet sb "Gold Champagne" = some [("standard", JSVal.num 1)]) :
    (determinePhenotype champagneScenarioGenotype (some p) age rng).final_display_color =
      "Gold Champagne" := by
  have hsh : determineShade (some p) "Gold Champagne" "Chestnut" (rng 0) =
      (some "standard", 1) := by
    unfold determineShade
    dsimp only
    rw [hsb]
    dsimp only
    rw [hentry]
    dsimp only
    rw [swr_single "standard" 1 one_pos (rng 0)]
    norm_num [swrDraws, sumOfWeights, validWeight]
  unfold determinePhenotype
  dsimp only
  rw [show dilutionPipeline champagneScenarioGenotype =
    ("Chestnut", true, ColorState.mk "Gold Champagne" "Gold Champagne", "") from by decide]
  dsimp only
  rw [hsh]
  dsimp only
  rw [show shadeOrStandard (some "standard") = "standard" from by decide]
  rw [show shadeApply "standard" (ColorState.mk "Gold Champagne" "Gold Champagne") =
    ColorState.mk "Gold Champagne" "Gold Champagne" from by decide]
  rw [show sootyStage champagneScenarioGenotype
      (ColorState.mk "Gold Champagne" "Gold Champagne") =
    ColorState.mk "Gold Champagne" "Gold Champagne" from by decide]
  dsimp only
  rw [show flaxenStage champagneScenarioGenotype true "Gold Champagne" ["Gold Champagne"] =
    ["Gold Champagne"] from by decide]
  rw [show pangareStage champagneScenarioGenotype ["Gold Champagne"] =
    ["Gold Champagne"] from by decide]
  rw [show roanStage champagneScenarioGenotype "Chestnut" "standard" ["Gold Champagne"]
      "Gold Champagne" = (["Gold Champagne"], "Gold Champagne") from by decide]
  dsimp only
  rw [show whiteStage champagneScenarioGenotype ["Gold Champagne"] "Gold Champagne" =
    (["Gold Champagne"], "Gold Champagne", false) from by decide]
  dsimp only
  rw [lpStage_skip champagneScenarioGenotype (by decide) (some p) age false
    ["Gold Champagne"] "Gold Champagne" rng 1]
  dsimp only
  rw [grayStage_skip champagneScenarioGenotype (by decide) (some p) "Chestnut" age false
    ["Gold Champagne"] "Gold Champagne" rng 1]
  dsimp only
  rw [show rabicanoStage champagneScenarioGenotype false ["Gold Champagne"] =
    ["Gold Champagne"] from by decide]
  rw [show dunPrimStage "" false ["Gold Champagne"] = ["Gold Champagne"] from by decide]
  rw [show dedupParts ["Gold Champagne"] = ["Gold Champagne"] from by decide]
  rw [show reorderStage "standard" false ["Gold Champagne"] = ["Gold Champagne"] from by decide]
  rw [show jsTrim (collapseSpaces (joinParts ["Gold Champagne"])) = "Gold Champagne" from by decide]
  rw [if_neg (by decide : ¬ jsTrim "Gold Champagne" = "")]

/-- Witness for C4: the profile of the source test suite at age zero. -/
theorem champagne_scenario_witness :
    (determinePhenotype champagneScenarioGenotype
      (some { shade_bias := some [("Gold Champagne", [("standard", JSVal.num 1)])] })
      0 (fun _ => 0)).final_display_color = "Gold Champagne" :=
  champagne_scenario
    { shade_bias := some [("Gold Champagne", [("standard", JSVal.num 1)])] }
    [("Gold Champagne", [("standard", JSVal.num 1)])] 0 (fun _ => 0) rfl (by decide)

/-- Claim C5: the mushroom-pearl scenario genotype resolves to Mushroom Pearl
whenever the shade setup yields the standard shade. -/
theorem mushroom_pearl_scenario (p? : Option BreedProfile) (age : ℚ) (rng : ℕ → ℚ)
    (hsh : shadeOrStandard
      (determineShade p? "Mushroom Pearl" "Chestnut" (rng 0)).1 = "standard") :
    (determinePhenotype mushroomPearlGenotype p? age rng).final_display_color =
      "Mushroom Pearl" := by
  unfold determinePhenotype
  dsimp only
  rw [show dilutionPipeline mushroomPearlGenotype =
    ("Chestnut", true, ColorState.mk "Mushroom Pearl" "Mushroom Pearl", "") from by decide]
  dsimp only
  rw [hsh]
  rw [show shadeApply "standard" (ColorState.mk "Mushroom Pearl" "Mushroom Pearl") =
    ColorState.mk "Mushroom Pearl" "Mushroom Pearl" from by decide]
  rw [show sootyStage mushroomPearlGenotype
      (ColorState.mk "Mushroom Pearl" "Mushroom Pearl") =
    ColorState.mk "Mushroom Pearl" "Mushroom Pearl" from by decide]
  dsimp only
  rw [show flaxenStage mushroomPearlGenotype true "Mushroom Pearl" ["Mushroom Pearl"] =
    ["Mushroom Pearl"] from by decide]
  rw [show pangareStage mushroomPearlGenotype ["Mushroom Pearl"] =
    ["Mushroom Pearl"] from by decide]
  rw [show roanStage mushroomPearlGenotype "Chestnut" "standard" ["Mushroom Pearl"]
      "Mushroom Pearl" = (["Mushroom Pearl"], "Mushroom Pearl") from by decide]
  dsimp only
  rw [show whiteStage mushroomPearlGenotype ["Mushroom Pearl"] "Mushroom Pearl" =
    (["Mushroom Pearl"], "Mushroom Pearl", false) from by decide]
  dsimp only
  rw [lpStage_skip mushroomPearlGenotype (by decide) p? age false
    ["Mushroom Pearl"] "Mushroom Pearl" rng _]
  dsimp only
  rw [grayStage_skip mushroomPearlGenotype (by decide) p? "Chestnut" age false
    ["Mushroom Pearl"] "Mushroom Pearl" rng _]
  dsimp only
  rw [show rabicanoStage mushroomPearlGenotype false ["Mushroom Pearl"] =
    ["Mushroom Pearl"] from by decide]
  rw [show dunPrimStage "" false ["Mushroom Pearl"] = ["Mushroom Pearl"] from by decide]
  rw [show dedupParts ["Mushroom Pearl"] = ["Mushroom Pearl"] from by decide]
  rw [show reorderStage "standard" false ["Mushroom Pearl"] = ["Mushroom Pearl"] from by decide]
  rw [show jsTrim (collapseSpaces (joinParts ["Mushroom Pearl"])) = "Mushroom Pearl" from by decide]
  rw [if_neg (by decide : ¬ jsTrim "Mushroom Pearl" = "")]

/-- Witness for C5: a missing profile falls back to the standard shade. -/
theorem mushroom_pearl_scenario_witness :
    (determinePhenotype mushroomPearlGenotype none 0
      (fun _ => 0)).final_display_color = "Mushroom Pearl" :=
  mushroom_pearl_scenario none 0 (fun _ => 0) (by decide)

/-- Counterexample for C1: calling determinePhenotype with a missing genotype
throws a TypeError at the first locus access instead of returning an
empty or default result. -/
theorem missing_genotype_throws :
    determinePhenotypeJS none none 0 (fun _ => 0) =
      Except.error "TypeError: cannot read properties of null" := rfl

/-- Claim C1 amended: generateStoreHorseGenetics and calculateFoalGenetics
return an empty genotype with a diagnostic and never throw on missing
arguments, and determinePhenotype never throws for a present genotype even
with a missing profile; but determinePhenotype with a missing genotype throws
a TypeError. -/
theorem missing_args_behavior :
    (∀ rng : ℕ → ℚ, generateStoreHorseGenetics none rng =
      ([], ["Breed genetic profile is undefined or null."])) ∧
    (∀ (sire? dam? : Option (Obj GenoVal)) (p? : Option BreedProfile) (rng : ℕ → ℚ),
      sire?.isNone ∨ dam?.isNone ∨ p?.isNone →
      calculateFoalGenetics sire? dam? p? rng =
        ([], ["Missing sire, dam, or foal breed profile for foal genetics calculation."])) ∧
    (∀ (g : Genotype) (p? : Option BreedProfile) (age : ℚ) (rng : ℕ → ℚ),
      determinePhenotypeJS (some g) p? age rng =
        Except.ok (determinePhenotype g p? age rng)) ∧
    (∀ (p? : Option BreedProfile) (age : ℚ) (rng : ℕ → ℚ),
      determinePhenotypeJS none p? age rng =
        Except.error "TypeError: cannot read properties of null") := by
  refine ⟨fun rng => rfl, ?_, fun g p? age rng => rfl, fun p? age rng => rfl⟩
  intro sire? dam? p? rng h
  rcases sire? with _ | sire
  · rfl
  rcases dam? with _ | dam
  · rfl
  rcases p? with _ | p
  · rfl
  rcases h with h | h | h <;> simp at h

/-- Witness for C1: a foal calculation with a missing sire returns the empty
genotype and the diagnostic. -/
theorem missing_args_behavior_witness :
    calculateFoalGenetics none (some []) (some {}) (fun _ => 0) =
      ([], ["Missing sire, dam, or foal breed profile for foal genetics calculation."]) :=
  missing_args_behavior.2.1 none (some []) (some {}) (fun _ => 0) (Or.inl rfl)

theorem getParentAllele_ee (r : ℚ) (h0 : 0 ≤ r) (h1 : r < 1) :
    getParentAllele (some (GenoVal.str "e/e")) r = some "e" := by
  unfold getParentAllele
  dsimp only
  rw [if_pos (by decide : ("e/e" : String) ≠ "" ∧ jsIncludes "e/e" "/" = true)]
  rw [show jsSplitCh "e/e" '/' = ["e", "e"] from by decide]
  have h02 : (Int.floor (r * ((["e", "e"] : List String).length : ℚ))).toNat = 0 ∨
      (Int.floor (r * ((["e", "e"] : List String).length : ℚ))).toNat = 1 := by
    have hlen : ((["e", "e"] : List String).length : ℚ) = 2 := by norm_num
    rw [hlen]
    have hub : Int.floor (r * 2) < 2 := Int.floor_lt.mpr (by push_cast; nlinarith)
    omega
  rcases h02 with h | h <;> rw [h] <;> rfl

theorem attemptLoop_ee (rng : ℕ → ℚ) (hr : ∀ i, 0 ≤ rng i ∧ rng i < 1)
    (allowed disallowed : List String) (hal : allowed.contains "e/e" = true)
    (hdis : disallowed.contains "e/e" = false) (fuel i : ℕ) :
    attemptLoop (GenoVal.str "e/e") (GenoVal.str "e/e") (some allowed) disallowed rng
      (fuel + 1) i = (some "e/e", i + 2) := by
  unfold attemptLoop
  dsimp only
  rw [show parentDraws (some (GenoVal.str "e/e")) = 1 from by decide]
  rw [getParentAllele_ee (rng i) (hr i).1 (hr i).2]
  rw [getParentAllele_ee (rng (i + 1)) (hr (i + 1)).1 (hr (i + 1)).2]
  dsimp only
  rw [show combineAlleles "e" "e" = "e/e" from by decide]
  rw [if_neg (by decide : ¬ ("e/e" : String) = "")]
  rw [hal]
  rw [if_neg (by decide : ¬ ((!(true : Bool)) = true))]
  rw [hdis]
  rw [if_neg (by decide : ¬ ((false : Bool) = true))]

theorem attemptLoop_ee_block (rng : ℕ → ℚ) (hr : ∀ i, 0 ≤ rng i ∧ rng i < 1) :
    ∀ fuel i, attemptLoop (GenoVal.str "e/e") (GenoVal.str "e/e") (some ["e/e"])
      ["e/e"] rng fuel i = (none, i + 2 * fuel) := by
  intro fuel
  induction fuel with
  | zero => intro i; rfl
  | succ n ih =>
    intro i
    unfold attemptLoop
    dsimp only
    rw [show parentDraws (some (GenoVal.str "e/e")) = 1 from by decide]
    rw [getParentAllele_ee (rng i) (hr i).1 (hr i).2]
    rw [getParentAllele_ee (rng (i + 1)) (hr (i + 1)).1 (hr (i + 1)).2]
    dsimp only
    rw [show combineAlleles "e" "e" = "e/e" from by decide]
    rw [if_neg (by decide : ¬ ("e/e" : String) = "")]
    rw [if_neg (by decide : ¬ ((!((["e/e"] : List String).contains "e/e")) = true))]
    rw [if_pos (by decide : ((["e/e"] : List String).contains "e/e") = true)]
    rw [ih (i + 1 + 1)]
    refine congrArg (fun n => ((none : Option String), n)) ?_
    omega

theorem objGet_mem_keys {α : Type} (o : Obj α) (k : String) (v : α)
    (h : objGet o k = some v) : k ∈ o.map Prod.fst := by
  induction o with
  | nil => simp [objGet] at h
  | cons hd tl ih =>
    unfold objGet at h
    by_cases hk : hd.1 = k
    · simp [hk]
    · rw [if_neg hk] at h
      exact List.mem_cons_of_mem _ (ih h)

theorem inheritGene_preserve (sire dam : Obj GenoVal) (p : BreedProfile)
    (rng : ℕ → ℚ) (gene : String) (acc : Obj GenoVal × List String × ℕ)
    (k : String) (hk : k ≠ gene) :
    objGet (inheritGene sire dam p rng gene acc).1 k = objGet acc.1 k := by
  unfold inheritGene
  dsimp only
  repeat' first
    | (rw [objGet_objSet, if_neg hk])
    | rfl
    | split

theorem inheritModifier_preserve (sire dam : Obj GenoVal) (bmp : Obj JSVal)
    (rng : ℕ → ℚ) (modName : String) (acc : Obj GenoVal × List String × ℕ)
    (k : String) (hk : booleanModifierNames.contains k = false) :
    objGet (inheritModifier sire dam bmp rng modName acc).1 k = objGet acc.1 k := by
  unfold inheritModifier
  by_cases hm : booleanModifierNames.contains modName = true
  · have hne : k ≠ modName := by
      intro hkm
      rw [hkm, hm] at hk
      exact absurd hk (by decide)
    dsimp only
    repeat' first
      | (rw [objGet_objSet, if_neg hne])
      | rfl
      | split
  · rw [if_pos (by simpa using hm)]

theorem inheritGene_ee (sire dam : Obj GenoVal) (p : BreedProfile)
    (rng : ℕ → ℚ) (aa : Obj (List String))
    (hs : objGet sire "E_Extension" = some (GenoVal.str "e/e"))
    (hd : objGet dam "E_Extension" = some (GenoVal.str "e/e"))
    (haa : p.allowed_alleles = some aa)
    (hval : objGet aa "E_Extension" = some ["e/e"])
    (hnd : (disallowedListOf p "E_Extension").contains "e/e" = false)
    (hr : ∀ i, 0 ≤ rng i ∧ rng i < 1) (acc : Obj GenoVal × List String × ℕ) :
    inheritGene sire dam p rng "E_Extension" acc =
      (objSet acc.1 "E_Extension" (GenoVal.str "e/e"), acc.2.1, acc.2.2 + 2) := by
  have hac : allowedCheckOf p "E_Extension" = some ["e/e"] := by
    unfold allowedCheckOf
    rw [haa]
    dsimp only
    rw [hval]
    rfl
  unfold inheritGene
  dsimp only
  rw [hs, hd]
  rw [if_pos (by decide : truthyGeno (some (GenoVal.str "e/e")) = true ∧
    truthyGeno (some (GenoVal.str "e/e")) = true)]
  dsimp only
  rw [hac]
  rw [show attemptLoop (GenoVal.str "e/e") (GenoVal.str "e/e") (some ["e/e"])
      (disallowedListOf p "E_Extension") rng 10 acc.2.2 = (some "e/e", acc.2.2 + 2) from
    attemptLoop_ee rng hr ["e/e"] (disallowedListOf p "E_Extension") (by decide) hnd 9 acc.2.2]

theorem genesFold_ee (sire dam : Obj GenoVal) (p : BreedProfile)
    (rng : ℕ → ℚ) (aa : Obj (List String))
    (hs : objGet sire "E_Extension" = some (GenoVal.str "e/e"))
    (hd : objGet dam "E_Extension" = some (GenoVal.str "e/e"))
    (haa : p.allowed_alleles = some aa)
    (hval : objGet aa "E_Extension" = some ["e/e"])
    (hnd : (disallowedListOf p "E_Extension").contains "e/e" = false)
    (hr : ∀ i, 0 ≤ rng i ∧ rng i < 1) :
    ∀ (genes : List String) (acc : Obj GenoVal × List String × ℕ),
      (objGet acc.1 "E_Extension" = some (GenoVal.str "e/e") ∨ "E_Extension" ∈ genes) →
      objGet ((genes.foldl (fun acc gene => inheritGene sire dam p rng gene acc) acc).1)
        "E_Extension" = some (GenoVal.str "e/e") := by
  intro genes
  induction genes with
  | nil =>
    intro acc hacc
    rcases hacc with hacc | hacc
    · exact hacc
    · simp at hacc
  | cons g2 rest ih =>
    intro acc hacc
    rw [List.foldl_cons]
    by_cases hg : g2 = "E_Extension"
    · subst hg
      apply ih
      left
      rw [inheritGene_ee sire dam p rng aa hs hd haa hval hnd hr acc]
      dsimp only
      rw [objGet_objSet]
      rw [if_pos rfl]
    · apply ih
      rcases hacc with hacc | hacc
      · left
        rw [inheritGene_preserve sire dam p rng g2 acc _ (fun hh => hg hh.symm)]
        exact hacc
      · rcases List.mem_cons.mp hacc with hacc | hacc
        · exact absurd hacc.symm hg
        · right
          exact hacc

theorem modifierFold_preserve (sire dam : Obj GenoVal) (bmp : Obj JSVal)
    (rng : ℕ → ℚ) (k : String) (hk : booleanModifierNames.contains k = false) :
    ∀ (names : List String) (acc : Obj GenoVal × List String × ℕ),
      objGet ((names.foldl (fun acc modName => inheritModifier sire dam bmp rng modName acc)
        acc).1) k = objGet acc.1 k := by
  intro names
  induction names with
  | nil => intro acc; rfl
  | cons n rest ih =>
    intro acc
    rw [List.foldl_cons, ih, inheritModifier_preserve sire dam bmp rng n acc k hk]

/-- Counterexample for C3: a foal profile that allows e/e at Extension but
also lists e/e as disallowed makes every path fail, so the locus is omitted
instead of being assigned e/e. -/
theorem ee_inheritance_counterexample :
    objGet (calculateFoalGenetics (some eeParent) (some eeParent)
      (some contradictoryFoalProfile) (fun _ => 0)).1 "E_Extension" = none := by
  have hr : ∀ i : ℕ, (0 : ℚ) ≤ (fun _ : ℕ => (0 : ℚ)) i ∧ (fun _ : ℕ => (0 : ℚ)) i < 1 := by
    intro i
    norm_num
  have hblock := attemptLoop_ee_block (fun _ => 0) hr 10 0
  unfold calculateFoalGenetics
  dsimp only
  rw [show contradictoryFoalProfile.allowed_alleles =
    some [("E_Extension", ["e/e"])] from rfl]
  dsimp only [List.map, List.foldl]
  unfold inheritGene
  dsimp only
  rw [show objGet eeParent "E_Extension" = some (GenoVal.str "e/e") from by decide]
  rw [if_pos (by decide : truthyGeno (some (GenoVal.str "e/e")) = true ∧
    truthyGeno (some (GenoVal.str "e/e")) = true)]
  dsimp only
  rw [show allowedCheckOf contradictoryFoalProfile "E_Extension" = some ["e/e"] from by decide]
  rw [show disallowedListOf contradictoryFoalProfile "E_Extension" = ["e/e"] from by decide]
  rw [hblock]
  decide

/-- Claim C3 amended: with both parents e/e at Extension, a foal profile whose
allowed_alleles at Extension is exactly the pair e/e, and e/e not listed in
the profile disallowed combinations for Extension, the foal Extension locus
is always e/e. -/
theorem ee_inheritance (sire dam : Obj GenoVal) (p : BreedProfile)
    (aa : Obj (List String)) (rng : ℕ → ℚ)
    (hs : objGet sire "E_Extension" = some (GenoVal.str "e/e"))
    (hd : objGet dam "E_Extension" = some (GenoVal.str "e/e"))
    (haa : p.allowed_alleles = some aa)
    (hval : objGet aa "E_Extension" = some ["e/e"])
    (hnd : (disallowedListOf p "E_Extension").contains "e/e" = false)
    (hr : ∀ i, 0 ≤ rng i ∧ rng i < 1) :
    objGet (calculateFoalGenetics (some sire) (some dam) (some p) rng).1
      "E_Extension" = some (GenoVal.str "e/e") := by
  unfold calculateFoalGenetics
  dsimp only
  rw [haa]
  dsimp only
  have hmem : "E_Extension" ∈ aa.map Prod.fst := objGet_mem_keys aa _ _ hval
  have hfold := genesFold_ee sire dam p rng aa hs hd haa hval hnd hr
    (aa.map Prod.fst) ([], [], 0) (Or.inr hmem)
  cases hbmp : p.boolean_modifiers_prevalence with
  | none =>
    dsimp only
    exact hfold
  | some bmp =>
    dsimp only
    rw [modifierFold_preserve sire dam bmp rng "E_Extension" (by decide)]
    exact hfold

/-- Witness for C3: the concrete scenario of the source test suite, with the
all-zero random stream. -/
theorem ee_inheritance_witness :
    objGet (calculateFoalGenetics (some eeParent) (some eeParent)
      (some eeAllowedProfile) (fun _ => 0)).1 "E_Extension" =
      some (GenoVal.str "e/e") :=
  ee_inheritance eeParent eeParent eeAllowedProfile [("E_Extension", ["e/e"])]
    (fun _ => 0) (by decide) (by decide) rfl (by decide) (by decide)
    (fun i => by norm_num)

theorem disallowedOf_eq (p : BreedProfile) (gene pair : String) :
    disallowedOf p gene pair = (disallowedListOf p gene).contains pair := by
  unfold disallowedOf disallowedListOf
  cases p.disallowed_combinations with
  | none => rfl
  | some d =>
    dsimp only
    cases h : objGet d gene with
    | none => rfl
    | some lst => rfl

theorem attemptLoop_fst_some (sPair dPair : GenoVal) (allowed? : Option (List String))
    (disallowed : List String) (rng : ℕ → ℚ) :
    ∀ (fuel i : ℕ) (pair : String),
      (attemptLoop sPair dPair allowed? disallowed rng fuel i).1 = some pair →
      disallowed.contains pair = false := by
  intro fuel
  induction fuel with
  | zero => intro i pair h; simp [attemptLoop] at h
  | succ n ih =>
    intro i pair h
    unfold attemptLoop at h
    dsimp only at h
    split at h
    · rename_i sa da heq
      split at h
      · simp at h
      · split at h
        · rename_i hin
          split at h
          · exact ih _ _ h
          · split at h
            · exact ih _ _ h
            · rename_i hdis
              dsimp only at h
              injection h with h1
              subst h1
              simpa using hdis
        · split at h
          · exact ih _ _ h
          · rename_i hdis
            dsimp only at h
            injection h with h1
            subst h1
            simpa using hdis
    · simp at h

theorem inheritGene_invariant (sire dam : Obj GenoVal) (p : BreedProfile)
    (rng : ℕ → ℚ) (gene : String) (acc : Obj GenoVal × List String × ℕ)
    (hacc : NoDisallowed p acc.1) :
    NoDisallowed p (inheritGene sire dam p rng gene acc).1 := by
  unfold inheritGene
  dsimp only
  split
  · rename_i pair hpair
    apply noDisallowed_objSet_str p _ gene pair hacc
    rw [disallowedOf_eq]
    split at hpair
    · split at hpair
      · exact attemptLoop_fst_some _ _ _ _ rng 10 _ pair hpair
      · simp at hpair
    · simp at hpair
  · rename_i hpair
    split
    · rename_i fb j hw
      split
      · rename_i hok
        exact noDisallowed_objSet_str p _ gene fb hacc
          (by rw [disallowedOf_eq]; simpa using hok.2)
      · split
        · rename_i s hfb
          split
          · rename_i hok
            exact noDisallowed_objSet_str p _ gene s hacc
              (by rw [disallowedOf_eq]; simpa using hok.2)
          · exact hacc
        · exact hacc
    · split
      · rename_i s hfb
        split
        · rename_i hok
          exact noDisallowed_objSet_str p _ gene s hacc
            (by rw [disallowedOf_eq]; simpa using hok.2)
        · exact hacc
      · exact hacc

theorem inheritModifier_invariant (sire dam : Obj GenoVal) (p : BreedProfile)
    (bmp : Obj JSVal) (rng : ℕ → ℚ) (modName : String)
    (acc : Obj GenoVal × List String × ℕ)
    (hws : ModifiersWellFormed sire) (hwd : ModifiersWellFormed dam)
    (hacc : NoDisallowed p acc.1) :
    NoDisallowed p (inheritModifier sire dam bmp rng modName acc).1 := by
  unfold inheritModifier
  by_cases hm : booleanModifierNames.contains modName = true
  · rw [if_neg (by rw [hm]; decide)]
    dsimp only
    split
    · exact noDisallowed_objSet_bool p _ modName _ hacc
    · split
      · exact noDisallowed_objSet_bool p _ modName _ hacc
      · split
        · exact noDisallowed_objSet_bool p _ modName _ hacc
        · split
          · rename_i hsome
            cases hv : objGet sire modName with
            | none =>
              rw [hv] at hsome
              simp at hsome
            | some v =>
              cases v with
              | str s => exact absurd hv (hws modName hm s)
              | bool b =>
                split
                · exact noDisallowed_objSet_bool p _ modName _ hacc
                · exact noDisallowed_objSet_bool p _ modName _ hacc
          · split
            · rename_i hdsome
              cases hv : objGet dam modName with
              | none =>
                rw [hv] at hdsome
                simp at hdsome
              | some v =>
                cases v with
                | str s => exact absurd hv (hwd modName hm s)
                | bool b =>
                  split
                  · exact noDisallowed_objSet_bool p _ modName _ hacc
                  · exact noDisallowed_objSet_bool p _ modName _ hacc
            · split
              · exact noDisallowed_objSet_bool p _ modName _ hacc
              · exact noDisallowed_objSet_bool p _ modName _ hacc
  · rw [if_pos (by simpa using hm)]
    exact hacc

/-- Claim C10: every locus of the foal genotype holds a pair outside the
profile disallowed set, across the direct-sampling, allele-weights and
canonical-fallback paths, for well-formed parent genotypes. -/
theorem foal_never_disallowed (sire dam : Obj GenoVal) (p : BreedProfile)
    (rng : ℕ → ℚ) (hws : ModifiersWellFormed sire) (hwd : ModifiersWellFormed dam) :
    ∀ gene pair,
      objGet (calculateFoalGenetics (some sire) (some dam) (some p) rng).1 gene =
        some (GenoVal.str pair) →
      disallowedOf p gene pair = false := by
  have hfold : ∀ (genes : List String) (acc : Obj GenoVal × List String × ℕ),
      NoDisallowed p acc.1 →
      NoDisallowed p ((genes.foldl
        (fun acc gene => inheritGene sire dam p rng gene acc) acc).1) := by
    intro genes
    induction genes with
    | nil => intro acc hacc; exact hacc
    | cons g2 rest ih =>
      intro acc hacc
      rw [List.foldl_cons]
      exact ih _ (inheritGene_invariant sire dam p rng g2 acc hacc)
  have hmfold : ∀ (bmp : Obj JSVal) (names : List String)
      (acc : Obj GenoVal × List String × ℕ), NoDisallowed p acc.1 →
      NoDisallowed p ((names.foldl
        (fun acc modName => inheritModifier sire dam bmp rng modName acc) acc).1) := by
    intro bmp names
    induction names with
    | nil => intro acc hacc; exact hacc
    | cons n rest ih =>
      intro acc hacc
      rw [List.foldl_cons]
      exact ih _ (inheritModifier_invariant sire dam p bmp rng n acc hws hwd hacc)
  intro gene pair hget
  unfold calculateFoalGenetics at hget
  dsimp only at hget
  have hempty : NoDisallowed p ([] : Obj GenoVal) := by
    intro g2 p2 h
    simp [objGet] at h
  revert hget
  cases hbmp : p.boolean_modifiers_prevalence with
  | none =>
    dsimp only
    intro hget
    exact hfold _ _ hempty gene pair hget
  | some bmp =>
    dsimp only
    intro hget
    exact hmfold bmp _ _ (hfold _ _ hempty) gene pair hget

/-- Evaluation of the scenario foal calculation used by the witnesses. -/
theorem foalEval_allowed :
    calculateFoalGenetics (some eeParent) (some eeParent) (some eeAllowedProfile)
      (fun _ => 0) = ([("E_Extension", GenoVal.str "e/e")], []) := by
  unfold calculateFoalGenetics
  dsimp only
  rw [show eeAllowedProfile.allowed_alleles = some [("E_Extension", ["e/e"])] from rfl]
  dsimp only [List.map, List.foldl]
  rw [inheritGene_ee eeParent eeParent eeAllowedProfile (fun _ => 0)
    [("E_Extension", ["e/e"])] (by decide) (by decide) rfl (by decide) (by decide)
    (fun i => by norm_num) ([], [], 0)]
  rfl

/-- Witness for C10: the scenario foal genotype satisfies the invariant at its
single locus. -/
theorem foal_never_disallowed_witness :
    disallowedOf eeAllowedProfile "E_Extension" "e/e" = false :=
  foal_never_disallowed eeParent eeParent eeAllowedProfile (fun _ => 0)
    (by
      intro m hm s
      have hmem : m = "sooty" ∨ m = "flaxen" ∨ m = "pangare" ∨ m = "rabicano" := by
        simpa [booleanModifierNames] using hm
      rcases hmem with rfl | rfl | rfl | rfl <;> simp [eeParent, objGet])
    (by
      intro m hm s
      have hmem : m = "sooty" ∨ m = "flaxen" ∨ m = "pangare" ∨ m = "rabicano" := by
        simpa [booleanModifierNames] using hm
      rcases hmem with rfl | rfl | rfl | rfl <;> simp [eeParent, objGet])
    "E_Extension" "e/e" (by rw [foalEval_allowed]; decide)

end Equoria
